import Mathlib

/-!
Verification development for the kargo-entegrasyon repository: a webhook
bridge between the BasitKargo shipping API and the Shopify order API.

The repository holds four near-duplicate program variants:
  * `IndexA`   — first program in src/index.js (direct GID lookup + backfill)
  * `IndexB`   — second program in src/index.js (`handleShipmentToShopify`,
                 free-text order search)
  * `Part000`  — src/unnamed/part_000 (order-name extraction + text search)
  * `Part001`  — src/unnamed/part_001 (direct GID lookup)

Remote HTTP calls are modelled by oracle functions gathered in a `World`
structure; every handler returns its `{ok, msg}` result together with the
list of remote calls it issued, in order.  JavaScript's loose values are
modelled as `Option String` fields (`none` = absent), with JS truthiness
(`"" `is falsy) made explicit by `jsTruthy`.
-/

/-! ## JS value helpers -/

/-- JS truthiness on an optional string field: absent and `""` are falsy. -/
def jsTruthy : Option String → Option String
  | some s => if s.data.isEmpty then none else some s
  | none => none

/-- First truthy value of a JS `a || b || ... || null` chain. -/
def firstTruthy : List (Option String) → Option String
  | [] => none
  | x :: xs =>
    match jsTruthy x with
    | some s => some s
    | none => firstTruthy xs

/-- JS regex `\\d`: an ASCII decimal digit. -/
def isDigitChar (c : Char) : Bool :=
  c == '0' || c == '1' || c == '2' || c == '3' || c == '4' ||
  c == '5' || c == '6' || c == '7' || c == '8' || c == '9'

/-- Whitespace as trimmed by JS `String.prototype.trim` (common cases). -/
def isWhite (c : Char) : Bool :=
  c == ' ' || c == '\t' || c == '\n' || c == '\r'

/-- JS `s.trim()`. -/
def jsTrim (s : String) : String :=
  String.mk (((s.data.dropWhile isWhite).reverse.dropWhile isWhite).reverse)

/-- ASCII uppercasing of one character, as JS `toUpperCase` acts on ASCII. -/
def upChar (c : Char) : Char :=
  if 'a' ≤ c ∧ c ≤ 'z' then Char.ofNat (c.toNat - 32) else c

/-- JS `s.toUpperCase()` restricted to ASCII data. -/
def jsToUpper (s : String) : String :=
  String.mk (s.data.map upChar)

/-- JS `s.replace(/^#/, "")`: drop one leading hash if present. -/
def dropHash (s : String) : String :=
  match s.data with
  | c :: rest => if c == '#' then String.mk rest else s
  | [] => s

/-- JS word character (regex `\w`): ASCII letter, digit or underscore. -/
def isWordChar (c : Char) : Bool :=
  c.isAlpha || isDigitChar c || c == '_'

/-! ## Regex fragments used by the extractors -/

/-- Body of the pattern `LP-\d+` anchored at the list head (case-insensitive
letters, at least one digit, nothing after). -/
def lpCore : List Char → Bool
  | a :: b :: c :: ds =>
    (a == 'L' || a == 'l') && (b == 'P' || b == 'p') && (c == '-') &&
      (!ds.isEmpty) && ds.all isDigitChar
  | _ => false

/-- JS test `/^#?LP-\d+$/i`. -/
def matchesLp (s : String) : Bool :=
  match s.data with
  | [] => false
  | c :: rest => if c == '#' then lpCore rest else lpCore (c :: rest)

/-- JS test `/^\d{3,8}$/`. -/
def digits3to8 (s : String) : Bool :=
  decide (3 ≤ s.data.length) && decide (s.data.length ≤ 8) && s.data.all isDigitChar

/-- JS test `/^\d{10,16}$/`. -/
def isShopifyNumericId (s : String) : Bool :=
  decide (10 ≤ s.data.length) && decide (s.data.length ≤ 16) && s.data.all isDigitChar

/-- Leftmost match of JS `joined.match(/LP-\d+/i)`: case-insensitive `LP-`
followed by a greedy run of digits. -/
def findLpSub : List Char → Option (List Char)
  | [] => none
  | c :: cs =>
    if c == 'L' || c == 'l' then
      match cs with
      | b :: d :: rest =>
        if (b == 'P' || b == 'p') && d == '-' then
          match rest with
          | e :: _ =>
            if isDigitChar e then some (c :: b :: d :: rest.takeWhile isDigitChar)
            else findLpSub cs
          | [] => findLpSub cs
        else findLpSub cs
      | _ => findLpSub cs
    else findLpSub cs

/-- Leftmost match of JS `joined.match(/\b(\d{3,8})\b/)`.  A maximal digit
run matches exactly when it is 3–8 digits long and flanked by non-word
characters (or the ends of the text); `prevWord` records whether the
character just before the current position is a word character. -/
def findDigitRun (prevWord : Bool) : List Char → Option (List Char)
  | [] => none
  | c :: cs =>
    if isDigitChar c && !prevWord then
      let ds := c :: cs.takeWhile isDigitChar
      let rest := cs.dropWhile isDigitChar
      if (decide (3 ≤ ds.length) && decide (ds.length ≤ 8) &&
          (match rest with
           | [] => true
           | r :: _ => !isWordChar r)) then
        some ds
      else findDigitRun (isWordChar c) cs
    else findDigitRun (isWordChar c) cs

/-! ## Data model -/

/-- `handler` object carried on payloads and shipment info: carrier name/code. -/
structure CarrierRef where
  name : Option String := none
  code : Option String := none
deriving DecidableEq

/-- Nested `shipmentInfo` object of the BasitKargo detail / payload. -/
structure BkShipmentInfo where
  handlerShipmentCode : Option String := none
  handlerShipmentTrackingLink : Option String := none
  handler : Option CarrierRef := none
deriving DecidableEq

/-- Nested `content` object of the BasitKargo order detail. -/
structure BkContent where
  code : Option String := none
  orderCode : Option String := none
  reference : Option String := none
  ref : Option String := none
deriving DecidableEq

/-- Nested `source` object of the BasitKargo order detail. -/
structure BkSource where
  orderCode : Option String := none
  code : Option String := none
deriving DecidableEq

/-- BasitKargo order detail (response of `GET /v2/order/{id}`); every field
the variants probe, all optional since the remote schema is not guaranteed. -/
structure BkDetail where
  content : Option BkContent := none
  foreignCode : Option String := none
  code : Option String := none
  orderCode : Option String := none
  reference : Option String := none
  ref : Option String := none
  sourceOrderCode : Option String := none
  source : Option BkSource := none
  shipmentInfo : Option BkShipmentInfo := none
  barcode : Option String := none
deriving DecidableEq

/-- Incoming webhook payload (union of the fields any variant reads). -/
structure Payload where
  id : Option String := none
  status : Option String := none
  handlerShipmentCode : Option String := none
  barcode : Option String := none
  shipmentInfo : Option BkShipmentInfo := none
  handler : Option CarrierRef := none
  shopify_order : Option String := none
  orderNumber : Option String := none
  order_no : Option String := none
  code : Option String := none
  order : Option String := none
deriving DecidableEq

/-- One Shopify fulfillment-order node (`{id status}` in the GraphQL query). -/
structure FONode where
  id : String
  status : String
deriving DecidableEq

/-- Shopify order as both lookup queries return it (the GraphQL
`edges { node ... }` wrapping is flattened to a plain list). -/
structure ShopOrder where
  id : String
  name : String
  fulfillmentOrders : List FONode
deriving DecidableEq

/-- One entry of the `userErrors` list of `fulfillmentCreateV2`. -/
structure UserError where
  field : List String
  message : String
deriving DecidableEq

/-- The `fulfillment { id status ... }` part of a successful mutation reply. -/
structure Fulfillment where
  id : String
  status : String
deriving DecidableEq

/-- Reply to one `fulfillmentCreateV2` call. -/
structure WriteResp where
  userErrors : List UserError
  fulfillment : Option Fulfillment
deriving DecidableEq

/-- Tracking data sent with one fulfillment-creation write. -/
structure TrackingInfo where
  company : String
  number : String
  url : Option String := none
deriving DecidableEq

/-- A remote API call, as recorded in a handler's trace. -/
inductive RemoteCall where
  | bkFetch (id : String)
  | shopifyOrderById (gid : String)
  | shopifySearch (q : String)
  | fulfillmentCreate (foId : String) (info : TrackingInfo)
deriving DecidableEq

/-- Handler outcome `{ok, msg}`. -/
structure Result where
  ok : Bool
  msg : String
deriving DecidableEq

/-- Remote collaborators of one invocation: the BasitKargo detail endpoint,
the two Shopify lookup styles, and the reply to the i-th fulfillment write. -/
structure World where
  bkFetch : String → BkDetail
  lookup : String → Option ShopOrder
  search : String → Option ShopOrder
  writeResp : Nat → WriteResp

/-- Is this trace entry a fulfillment-creation write? -/
def isWriteCall : RemoteCall → Bool
  | RemoteCall.fulfillmentCreate _ _ => true
  | _ => false

/-- Is this trace entry a free-text order search? -/
def isSearchCall : RemoteCall → Bool
  | RemoteCall.shopifySearch _ => true
  | _ => false

/-- The fulfillment-creation writes contained in a trace. -/
def writeCalls (tr : List RemoteCall) : List RemoteCall :=
  tr.filter isWriteCall

/-! ## JSON serialization (JS `JSON.stringify` on the userErrors list;
control-character escapes are elided since no message contains them) -/

/-- Escape one character for a JSON string literal. -/
def escChar (c : Char) : List Char :=
  if c == '"' then ['\\', '"'] else if c == '\\' then ['\\', '\\'] else [c]

/-- Escape a string for embedding in a JSON string literal. -/
def jsEscape (s : String) : String :=
  String.mk (s.data.foldr (fun c acc => escChar c ++ acc) [])

/-- JSON string literal. -/
def jsonStr (s : String) : String :=
  "\"" ++ jsEscape s ++ "\""

/-- JSON array of string literals. -/
def jsonStrList (l : List String) : String :=
  "[" ++ String.intercalate "," (l.map jsonStr) ++ "]"

/-- JSON object for one user error (`{"field":[...],"message":"..."}`). -/
def jsonUserError (e : UserError) : String :=
  "\x7b\"field\":" ++ jsonStrList e.field ++ ",\"message\":" ++ jsonStr e.message ++ "\x7d"

/-- `JSON.stringify(userErrors)`. -/
def jsonUserErrors (l : List UserError) : String :=
  "[" ++ String.intercalate "," (l.map jsonUserError) ++ "]"

/-! ## Shared pieces of the variants -/

/-- Status filter `n.status === "OPEN" || n.status === "IN_PROGRESS"`,
identical in every variant. -/
def isOpenFO (n : FONode) : Bool :=
  n.status == "OPEN" || n.status == "IN_PROGRESS"

/-- `extractShopifyOrderGidFromBasitKargo`, identical in src/index.js (first
program) and src/unnamed/part_001: first truthy of `content.code` /
`foreignCode`; if the trimmed value is 10–16 digits, build the order GID. -/
def extractShopifyOrderGidFromBasitKargo (bk : BkDetail) : Option String :=
  match firstTruthy [bk.content.bind BkContent.code, bk.foreignCode] with
  | none => none
  | some raw =>
    let s := jsTrim raw
    if isShopifyNumericId s then some ("gid://shopify/Order/" ++ s) else none

/-- `buildOrderQuery`, identical in the second src/index.js program and
src/unnamed/part_000: search expression matching the order name with and
without a leading hash. -/
def buildOrderQuery (orderInput : String) : Option String :=
  let raw := jsTrim orderInput
  if raw.data.isEmpty then none
  else
    let withHash := if raw.data.head? = some '#' then raw else "#" ++ raw
    let noHash := dropHash withHash
    some ("name:\"" ++ withHash ++ "\" OR name:\"" ++ noHash ++ "\"")

/-- One record pushed onto `results` after a successful write. -/
structure WriteRec where
  fo : String
  fulfillmentId : Option String
  status : Option String
deriving DecidableEq

/-- Outcome of the per-unit write loop: every write succeeded, or the loop
aborted on the first non-empty `userErrors` list. -/
inductive LoopOut where
  | success (recs : List WriteRec)
  | failure (errs : List UserError)
deriving DecidableEq

/-- The sequential `for (const fo of openFOs)` write loop shared verbatim by
the first src/index.js program, part_000 and part_001: one
`fulfillmentCreateV2` call per unit, aborting on the first reply whose
`userErrors` is non-empty.  `i` indexes into the world's write replies. -/
def writeLoop (wr : Nat → WriteResp) (info : TrackingInfo) :
    List FONode → Nat → LoopOut × List RemoteCall
  | [], _ => (LoopOut.success [], [])
  | fo :: rest, i =>
    let resp := wr i
    if resp.userErrors.isEmpty then
      match writeLoop wr info rest (i + 1) with
      | (LoopOut.success recs, tr) =>
        (LoopOut.success
          ({ fo := fo.id
             fulfillmentId := resp.fulfillment.map Fulfillment.id
             status := resp.fulfillment.map Fulfillment.status } :: recs),
          RemoteCall.fulfillmentCreate fo.id info :: tr)
      | (LoopOut.failure errs, tr) =>
        (LoopOut.failure errs, RemoteCall.fulfillmentCreate fo.id info :: tr)
    else
      (LoopOut.failure resp.userErrors, [RemoteCall.fulfillmentCreate fo.id info])

/-- Success message of the looped variants:
`OK: <name> tracking=<tn> fulfillments=<comma-joined ids>` (JS `join(",")`
renders an undefined id as the empty string). -/
def successMsg (name tn : String) (recs : List WriteRec) : String :=
  "OK: " ++ name ++ " tracking=" ++ tn ++ " fulfillments=" ++
    String.intercalate "," (recs.map (fun r => r.fulfillmentId.getD ""))

/-- No-op message when no unit is OPEN/IN_PROGRESS (same text in the three
filtering variants). -/
def noOpenMsg (name : String) : String :=
  "No OPEN/IN_PROGRESS fulfillmentOrder for " ++ name ++ " (already fulfilled/closed)"

/-! ## Variant IndexA — first program in src/index.js -/

namespace IndexA

/-- `normalizeTrackingNumber(bk, payload)` of the first src/index.js program. -/
def normalizeTrackingNumber (bk : BkDetail) (p : Payload) : Option String :=
  firstTruthy
    [bk.shipmentInfo.bind BkShipmentInfo.handlerShipmentCode,
     p.shipmentInfo.bind BkShipmentInfo.handlerShipmentCode,
     p.handlerShipmentCode,
     bk.barcode,
     p.barcode]

/-- `normalizeTrackingUrl(bk, payload)`. -/
def normalizeTrackingUrl (bk : BkDetail) (p : Payload) : Option String :=
  firstTruthy
    [bk.shipmentInfo.bind BkShipmentInfo.handlerShipmentTrackingLink,
     p.shipmentInfo.bind BkShipmentInfo.handlerShipmentTrackingLink]

/-- `fulfillWithTrackingOnOpenFOs(orderGid, trackingNumber, trackingUrl)`:
fetch the order by GID, filter its units to OPEN/IN_PROGRESS, no-op when the
filter is empty, else run the write loop with company fixed to `"Other"`. -/
def fulfillWithTrackingOnOpenFOs (lookup : String → Option ShopOrder)
    (wr : Nat → WriteResp) (orderGid trackingNumber : String)
    (trackingUrl : Option String) : Result × List RemoteCall :=
  match lookup orderGid with
  | none =>
    ({ ok := false, msg := "Order not found by id: " ++ orderGid },
     [RemoteCall.shopifyOrderById orderGid])
  | some order =>
    let openFOs := order.fulfillmentOrders.filter isOpenFO
    if openFOs.isEmpty then
      ({ ok := true, msg := noOpenMsg order.name },
       [RemoteCall.shopifyOrderById orderGid])
    else
      match writeLoop wr { company := "Other", number := trackingNumber, url := trackingUrl } openFOs 0 with
      | (LoopOut.success recs, tr) =>
        ({ ok := true, msg := successMsg order.name trackingNumber recs },
         RemoteCall.shopifyOrderById orderGid :: tr)
      | (LoopOut.failure errs, tr) =>
        ({ ok := false, msg := "Shopify userErrors: " ++ jsonUserErrors errs },
         RemoteCall.shopifyOrderById orderGid :: tr)

/-- `handleBasitKargoWebhook(payload)` of the first src/index.js program:
empty test payloads and non-actionable *present* statuses are success no-ops;
otherwise fetch the BasitKargo detail, extract the order GID and the
tracking number, and fulfill the open units. -/
def handleBasitKargoWebhook (w : World) (p : Payload) : Result × List RemoteCall :=
  match jsTruthy p.id with
  | none => ({ ok := true, msg := "OK (test payload ignored)" }, [])
  | some pid =>
    let ignored :=
      match jsTruthy p.status with
      | some st => !(st == "READY_TO_SHIP" || st == "SHIPPED")
      | none => false
    if ignored then ({ ok := true, msg := "OK (status ignored)" }, [])
    else
      let bk := w.bkFetch pid
      match extractShopifyOrderGidFromBasitKargo bk with
      | none =>
        ({ ok := false,
           msg := "BasitKargo response missing Shopify order id (content.code/foreignCode)" },
         [RemoteCall.bkFetch pid])
      | some orderGid =>
        match normalizeTrackingNumber bk p with
        | none =>
          ({ ok := false, msg := "Tracking number missing (handlerShipmentCode/barcode)" },
           [RemoteCall.bkFetch pid])
        | some trackingNumber =>
          let out := fulfillWithTrackingOnOpenFOs w.lookup w.writeResp orderGid
            trackingNumber (normalizeTrackingUrl bk p)
          (out.1, RemoteCall.bkFetch pid :: out.2)

end IndexA

/-! ## Variant IndexB — second program in src/index.js -/

namespace IndexB

/-- Search-result world of `handleShipmentToShopify`: the order search and
the single fulfillment write it may issue (2xx JSON replies; the HTTP-error
early returns of `shopifyGraphql` are outside the modelled worlds). -/
structure WorldB where
  search : String → Option ShopOrder
  writeResp : WriteResp

/-- `handleShipmentToShopify(payload)`: SHIPPED-only, order identity taken
from the payload itself, free-text order search, and — unlike the other
variants — a fallback to the *first* fulfillment unit when none is
OPEN/IN_PROGRESS. -/
def handleShipmentToShopify (envOk : Bool) (w : WorldB) (p : Payload) :
    Result × List RemoteCall :=
  if !envOk then ({ ok := false, msg := "Missing SHOPIFY_STORE or SHOPIFY_TOKEN" }, [])
  else if p.status ≠ some "SHIPPED" then ({ ok := true, msg := "Ignored" }, [])
  else
    let carrierCode := (jsTruthy (p.handler.bind CarrierRef.code)).getD "Other"
    match jsTruthy p.handlerShipmentCode with
    | none => ({ ok := false, msg := "Missing handlerShipmentCode" }, [])
    | some trackingNumber =>
      match firstTruthy [p.shopify_order, p.orderNumber, p.order_no, p.code, p.order] with
      | none =>
        ({ ok := false, msg := "Missing Shopify order in payload (send shopify_order: LP-1009)" }, [])
      | some orderInput =>
        match buildOrderQuery orderInput with
        | none => ({ ok := false, msg := "Invalid order input" }, [])
        | some q =>
          match w.search q with
          | none =>
            ({ ok := false, msg := "Order not found (query: " ++ q ++ ")" },
             [RemoteCall.shopifySearch q])
          | some order =>
            let foEdges := order.fulfillmentOrders
            match (foEdges.find? isOpenFO).orElse (fun _ => foEdges.head?) with
            | none =>
              ({ ok := false, msg := "No fulfillmentOrderId found" },
               [RemoteCall.shopifySearch q])
            | some fo =>
              if fo.id.data.isEmpty then
                ({ ok := false, msg := "No fulfillmentOrderId found" },
                 [RemoteCall.shopifySearch q])
              else
                let tr := [RemoteCall.shopifySearch q,
                  RemoteCall.fulfillmentCreate fo.id
                    { company := carrierCode, number := trackingNumber, url := none }]
                if w.writeResp.userErrors.isEmpty then
                  ({ ok := true, msg := "OK: " ++ order.name ++ " tracking=" ++ trackingNumber }, tr)
                else
                  ({ ok := false,
                     msg := "Shopify userErrors: " ++ jsonUserErrors w.writeResp.userErrors }, tr)

end IndexB

/-! ## Variant Part000 — src/unnamed/part_000 -/

namespace Part000

/-- Candidate identifier fields probed by
`extractShopifyOrderNameFromBasitKargo`, after
`.filter(Boolean).map(x => x.toString().trim()).filter(x => x.length)`. -/
def candidatesOf (bk : BkDetail) : List String :=
  (([bk.content.bind BkContent.code,
     bk.content.bind BkContent.orderCode,
     bk.content.bind BkContent.reference,
     bk.content.bind BkContent.ref,
     bk.code,
     bk.orderCode,
     bk.reference,
     bk.ref,
     bk.sourceOrderCode,
     bk.source.bind BkSource.orderCode,
     bk.source.bind BkSource.code].filterMap jsTruthy).map jsTrim).filter
    (fun x => !x.data.isEmpty)

/-- Normal form `#LP-<DIGITS>` built by `'#' + s.replace(/^#/,'').toUpperCase()`. -/
def normalizeLpName (s : String) : String :=
  "#" ++ jsToUpper (dropHash s)

/-- The priority cascade of `extractShopifyOrderNameFromBasitKargo` run on
the filtered candidate list: exact `#?LP-\d+` match first, then an embedded
`LP-\d+` in the joined text, then a bare 3–8 digit run. -/
def extractFromCandidates (candidates : List String) : Option String :=
  match candidates.find? matchesLp with
  | some s => some (normalizeLpName s)
  | none =>
    let joined := String.intercalate " | " candidates
    match findLpSub joined.data with
    | some m => some ("#" ++ jsToUpper (String.mk m))
    | none =>
      match findDigitRun false joined.data with
      | some ds => some ("#LP-" ++ String.mk ds)
      | none => none

/-- `extractShopifyOrderNameFromBasitKargo(bk)`. -/
def extractShopifyOrderNameFromBasitKargo (bk : BkDetail) : Option String :=
  extractFromCandidates (candidatesOf bk)

/-- Normalization of a payload-supplied order name (handler lines 158–162):
`#?LP-\d+` → `#LP-<DIGITS>`, bare 3–8 digits → `#LP-<digits>`, else ensure a
leading hash. -/
def normalizeOrderInput (s0 : String) : String :=
  let s := jsTrim s0
  if matchesLp s then normalizeLpName s
  else if digits3to8 s then "#LP-" ++ s
  else if s.data.head? = some '#' then s else "#" ++ s

/-- Order search and write phase of the part_000 handler (lines 180–253):
build the search query, search, filter units to OPEN/IN_PROGRESS, and run
the write loop with the payload's carrier name.  Returns its own trace; the
handler prepends the BasitKargo fetch when one happened. -/
def resolveAndFulfill (w : World) (carrierName trackingNumber : String)
    (shopifyOrderName : String) : Result × List RemoteCall :=
  match buildOrderQuery shopifyOrderName with
  | none => ({ ok := false, msg := "Invalid Shopify order name" }, [])
  | some q =>
    match w.search q with
    | none =>
      ({ ok := false, msg := "Order not found (query: " ++ q ++ ")" },
       [RemoteCall.shopifySearch q])
    | some order =>
      let openFOs := order.fulfillmentOrders.filter isOpenFO
      if openFOs.isEmpty then
        ({ ok := true, msg := noOpenMsg order.name }, [RemoteCall.shopifySearch q])
      else
        match writeLoop w.writeResp { company := carrierName, number := trackingNumber, url := none } openFOs 0 with
        | (LoopOut.success recs, tr) =>
          ({ ok := true, msg := successMsg order.name trackingNumber recs },
           RemoteCall.shopifySearch q :: tr)
        | (LoopOut.failure errs, tr) =>
          ({ ok := false, msg := "Shopify userErrors: " ++ jsonUserErrors errs },
           RemoteCall.shopifySearch q :: tr)

/-- Diagnostic returned when the BasitKargo detail holds no usable order code. -/
def missingCodeMsg : String :=
  "Basit Kargo order detail içinde Shopify sipariş kodu bulunamadı. " ++
  "Sipariş oluştururken BasitKargo content.code alanına \x27#LP-xxxx\x27 " ++
  "yazdırın veya response alanlarını paylaşın."

/-- `handleBasitKargoWebhook(payload)` of part_000: SHIPPED only, tracking
number straight from the payload, order name from the payload when present
(normalized) else extracted from the fetched BasitKargo detail, then search
and fulfill. -/
def handleBasitKargoWebhook (w : World) (p : Payload) : Result × List RemoteCall :=
  if p.status ≠ some "SHIPPED" then ({ ok := true, msg := "Ignored" }, [])
  else
    let carrierName :=
      (firstTruthy [p.handler.bind CarrierRef.name, p.handler.bind CarrierRef.code]).getD "Other"
    match jsTruthy p.handlerShipmentCode with
    | none => ({ ok := false, msg := "Missing handlerShipmentCode" }, [])
    | some trackingNumber =>
      match firstTruthy [p.shopify_order, p.orderNumber, p.order_no, p.code, p.order] with
      | some s0 => resolveAndFulfill w carrierName trackingNumber (normalizeOrderInput s0)
      | none =>
        match jsTruthy p.id with
        | none =>
          ({ ok := false, msg := "Webhook payload missing id; cannot fetch BasitKargo order detail" }, [])
        | some pid =>
          let bk := w.bkFetch pid
          match extractShopifyOrderNameFromBasitKargo bk with
          | none => ({ ok := false, msg := missingCodeMsg }, [RemoteCall.bkFetch pid])
          | some nm =>
            let out := resolveAndFulfill w carrierName trackingNumber nm
            (out.1, RemoteCall.bkFetch pid :: out.2)

end Part000

/-! ## Variant Part001 — src/unnamed/part_001 -/

namespace Part001

/-- `normalizeCarrierName(bk, payload)` of part_001. -/
def normalizeCarrierName (bk : BkDetail) (p : Payload) : String :=
  (firstTruthy
    [(bk.shipmentInfo.bind BkShipmentInfo.handler).bind CarrierRef.name,
     (p.shipmentInfo.bind BkShipmentInfo.handler).bind CarrierRef.name,
     p.handler.bind CarrierRef.name,
     (bk.shipmentInfo.bind BkShipmentInfo.handler).bind CarrierRef.code,
     (p.shipmentInfo.bind BkShipmentInfo.handler).bind CarrierRef.code,
     p.handler.bind CarrierRef.code]).getD "Other"

/-- `normalizeTrackingNumber(bk, payload)` of part_001 (no `bk.barcode`
fallback, unlike the IndexA version). -/
def normalizeTrackingNumber (bk : BkDetail) (p : Payload) : Option String :=
  firstTruthy
    [bk.shipmentInfo.bind BkShipmentInfo.handlerShipmentCode,
     p.shipmentInfo.bind BkShipmentInfo.handlerShipmentCode,
     p.handlerShipmentCode,
     p.barcode]

/-- `fulfillWithTrackingOnOpenFOs(orderGid, carrierName, trackingNumber)` of
part_001: like the IndexA version but the carrier name is passed through and
no tracking URL is sent. -/
def fulfillWithTrackingOnOpenFOs (lookup : String → Option ShopOrder)
    (wr : Nat → WriteResp) (orderGid carrierName trackingNumber : String) :
    Result × List RemoteCall :=
  match lookup orderGid with
  | none =>
    ({ ok := false, msg := "Order not found by id: " ++ orderGid },
     [RemoteCall.shopifyOrderById orderGid])
  | some order =>
    let openFOs := order.fulfillmentOrders.filter isOpenFO
    if openFOs.isEmpty then
      ({ ok := true, msg := noOpenMsg order.name },
       [RemoteCall.shopifyOrderById orderGid])
    else
      match writeLoop wr { company := carrierName, number := trackingNumber, url := none } openFOs 0 with
      | (LoopOut.success recs, tr) =>
        ({ ok := true, msg := successMsg order.name trackingNumber recs },
         RemoteCall.shopifyOrderById orderGid :: tr)
      | (LoopOut.failure errs, tr) =>
        ({ ok := false, msg := "Shopify userErrors: " ++ jsonUserErrors errs },
         RemoteCall.shopifyOrderById orderGid :: tr)

/-- `handleBasitKargoWebhook(payload)` of part_001: READY_TO_SHIP/SHIPPED
only (absent status ignored too), fetch the detail, extract the GID, tracking
number and carrier, then fulfill by direct reference. -/
def handleBasitKargoWebhook (w : World) (p : Payload) : Result × List RemoteCall :=
  if (match p.status with
      | some s => ["READY_TO_SHIP", "SHIPPED"].contains s
      | none => false) then
    match jsTruthy p.id with
    | none => ({ ok := false, msg := "Webhook payload missing id" }, [])
    | some pid =>
      let bk := w.bkFetch pid
      match extractShopifyOrderGidFromBasitKargo bk with
      | none =>
        ({ ok := false,
           msg := "BasitKargo response içinde Shopify Order ID yok (content.code/foreignCode)" },
         [RemoteCall.bkFetch pid])
      | some orderGid =>
        match normalizeTrackingNumber bk p with
        | none =>
          ({ ok := false, msg := "Tracking number not found (handlerShipmentCode/barcode)" },
           [RemoteCall.bkFetch pid])
        | some trackingNumber =>
          let carrierName := normalizeCarrierName bk p
          let out := fulfillWithTrackingOnOpenFOs w.lookup w.writeResp orderGid carrierName trackingNumber
          (out.1, RemoteCall.bkFetch pid :: out.2)
  else ({ ok := true, msg := "Ignored" }, [])

end Part001

/-! ## Backfill driver — `/backfill-today` route of the first src/index.js
program.  The per-item call `handleBasitKargoWebhook({id, status:
"READY_TO_SHIP"})` is abstracted as an oracle `outcome` that either returns
the handler result or throws (`Except.error` carries `e.message`). -/

namespace IndexA

/-- One item of a BasitKargo filter page; only its `id` is read. -/
structure BkItem where
  id : Option String := none
deriving DecidableEq

/-- One element of the backfill `done` / `failed` lists. -/
structure RunEntry where
  id : String
  msg : String
deriving DecidableEq

/-- Remote collaborators of a backfill run: the filter pages and the
per-item orchestrator outcome. -/
structure BackfillWorld where
  pages : Nat → List BkItem
  outcome : String → Except String Result

/-- The inner `for (const it of items)` loop: items without a truthy id are
skipped; an ok result goes to `done`, a failed result to `failed`, and a
thrown error to `failed` with `e?.message || "error"`. -/
def processItems (outcome : String → Except String Result) :
    List BkItem → List RunEntry × List RunEntry
  | [] => ([], [])
  | it :: rest =>
    let out := processItems outcome rest
    match jsTruthy it.id with
    | none => out
    | some id =>
      match outcome id with
      | Except.ok r =>
        if r.ok then ({ id := id, msg := r.msg } :: out.1, out.2)
        else (out.1, { id := id, msg := r.msg } :: out.2)
      | Except.error e =>
        (out.1, { id := id, msg := if e.data.isEmpty then "error" else e } :: out.2)

/-- The `for (let page = 0; page < maxPages; page++)` loop, structured on the
remaining page budget; also counts the filter calls made.  An empty page
breaks before processing; a page shorter than `size` is processed and then
breaks. -/
def backfillPages (w : BackfillWorld) (size : Nat) :
    Nat → Nat → List RunEntry × List RunEntry × Nat
  | 0, _ => ([], [], 0)
  | rem + 1, page =>
    let items := w.pages page
    if items.isEmpty then ([], [], 1)
    else
      let out := processItems w.outcome items
      if items.length < size then (out.1, out.2, 1)
      else
        let next := backfillPages w size rem (page + 1)
        (out.1 ++ next.1, out.2 ++ next.2.1, next.2.2 + 1)

/-- JSON summary returned by the route (note: no `done` list, only counts
and the failed entries). -/
structure BackfillReport where
  ok : Bool
  startDate : String
  endDate : String
  statusList : List String
  doneCount : Nat
  failedCount : Nat
  failed : List RunEntry
deriving DecidableEq

/-- The `/backfill-today` route body after parameter defaulting. -/
def backfillToday (w : BackfillWorld) (startDate endDate : String)
    (statusList : List String) (size maxPages : Nat) : BackfillReport :=
  let run := backfillPages w size maxPages 0
  { ok := true
    startDate := startDate
    endDate := endDate
    statusList := statusList
    doneCount := run.1.length
    failedCount := run.2.1.length
    failed := run.2.1 }

/-- Items of filter pages `start, start+1, ..., start+n-1`, concatenated. -/
def segItems (w : BackfillWorld) : Nat → Nat → List BkItem
  | _, 0 => []
  | start, n + 1 => w.pages start ++ segItems w (start + 1) n

/-- Spec-side description of the `done` list: every item is handled
independently, an item without a truthy id contributes nothing, and an item
whose orchestrator outcome is ok contributes one entry. -/
def doneOf (outcome : String → Except String Result) (items : List BkItem) :
    List RunEntry :=
  items.filterMap fun it =>
    match jsTruthy it.id with
    | none => none
    | some id =>
      match outcome id with
      | Except.ok r => if r.ok then some { id := id, msg := r.msg } else none
      | Except.error _ => none

/-- Spec-side description of the `failed` list: a failed result or a thrown
error contributes one entry (thrown errors with an empty message are
reported as `"error"`), and never aborts the run. -/
def failedOf (outcome : String → Except String Result) (items : List BkItem) :
    List RunEntry :=
  items.filterMap fun it =>
    match jsTruthy it.id with
    | none => none
    | some id =>
      match outcome id with
      | Except.ok r => if r.ok then none else some { id := id, msg := r.msg }
      | Except.error e =>
        some { id := id, msg := if e.data.isEmpty then "error" else e }

end IndexA

/-! ## Trace predicates used by the claims -/

/-- Does this trace contain any fulfillment-creation write? -/
def hasWriteCall (tr : List RemoteCall) : Bool :=
  tr.any isWriteCall

/-- Does every fulfillment-creation write in the trace reference a unit of
`units` whose status is OPEN or IN_PROGRESS? -/
def writesOnlyOpen (units : List FONode) (tr : List RemoteCall) : Bool :=
  tr.all fun c =>
    match c with
    | RemoteCall.fulfillmentCreate fid _ => units.any fun u => u.id == fid && isOpenFO u
    | _ => true

/-! ## Concrete fixtures for counterexamples and witnesses -/

/-- A successful reply to a fulfillment write. -/
def okWriteResp : WriteResp :=
  { userErrors := [], fulfillment := some { id := "f1", status := "SUCCESS" } }

/-- Order whose only fulfillment unit is CLOSED. -/
def closedUnitOrder : ShopOrder :=
  { id := "o9", name := "#LP-9", fulfillmentOrders := [{ id := "fo_9", status := "CLOSED" }] }

/-- Order with one OPEN fulfillment unit. -/
def openUnitOrder : ShopOrder :=
  { id := "o1", name := "#LP-1", fulfillmentOrders := [{ id := "fo_1", status := "OPEN" }] }

/-- Order with two OPEN fulfillment units. -/
def twoOpenOrder : ShopOrder :=
  { id := "o2", name := "#LP-2",
    fulfillmentOrders := [{ id := "fo_a", status := "OPEN" }, { id := "fo_b", status := "IN_PROGRESS" }] }

/-- Search world for `handleShipmentToShopify` resolving to `closedUnitOrder`. -/
def worldBClosed : IndexB.WorldB :=
  { search := fun _ => some closedUnitOrder, writeResp := okWriteResp }

/-- Payload naming order LP-9, SHIPPED, with a tracking code. -/
def shippedPayload9 : Payload :=
  { status := some "SHIPPED", handlerShipmentCode := some "TN9", shopify_order := some "LP-9" }

/-- Lookup oracle resolving every GID to `openUnitOrder`. -/
def lookupOpen : String → Option ShopOrder := fun _ => some openUnitOrder

/-- Write oracle replying success to every write. -/
def okWrites : Nat → WriteResp := fun _ => okWriteResp

/-- World whose BasitKargo detail is entirely empty and whose order lookups
find nothing. -/
def emptyWorld : World :=
  { bkFetch := fun _ => {}, lookup := fun _ => none, search := fun _ => none,
    writeResp := fun _ => okWriteResp }

/-- Lookup oracle resolving every GID to `closedUnitOrder`. -/
def lookupClosed : String → Option ShopOrder := fun _ => some closedUnitOrder

/-- Lookup oracle resolving every GID to `twoOpenOrder`. -/
def lookupTwoOpen : String → Option ShopOrder := fun _ => some twoOpenOrder

/-- Payload with a correlation id but no status field at all. -/
def noStatusPayload : Payload := { id := some "BK-1" }

/-- Payload with a non-actionable status. -/
def cancelledPayload : Payload := { id := some "BK-2", status := some "CANCELLED" }

/-- BasitKargo detail whose `content.code` carries a lowercase LP code. -/
def lpDetail : BkDetail := { content := some { code := some "#lp-1009" } }

/-- BasitKargo detail carrying the already-normalized LP code. -/
def lpDetailNorm : BkDetail := { content := some { code := some "#LP-1009" } }

/-- Part_000 payload: SHIPPED with tracking code and correlation id, but no
order-name field. -/
def part000Payload : Payload :=
  { id := some "BK-6", status := some "SHIPPED", handlerShipmentCode := some "TN6" }

/-- Detail whose `content.code` is non-numeric while `foreignCode` holds a
13-digit Shopify order id. -/
def mixedDetail : BkDetail :=
  { content := some { code := some "SHOPIFY-1" }, foreignCode := some "7708726460709" }

/-- Detail carrying a 13-digit Shopify order id in `content.code` and a
tracking code. -/
def gidDetail : BkDetail :=
  { content := some { code := some "7708726460709" },
    shipmentInfo := some { handlerShipmentCode := some "TRK1" } }

/-- World whose BasitKargo detail is `gidDetail`. -/
def gidWorld : World :=
  { bkFetch := fun _ => gidDetail, lookup := fun _ => none, search := fun _ => none,
    writeResp := fun _ => okWriteResp }

/-- READY_TO_SHIP payload with only a correlation id. -/
def rtsPayload : Payload := { id := some "BK-2", status := some "READY_TO_SHIP" }

/-- SHIPPED payload with a correlation id but no tracking fields anywhere. -/
def shippedNoTrack : Payload := { id := some "BK-1", status := some "SHIPPED" }

/-- World whose BasitKargo detail carries the LP code and whose order
search resolves to `closedUnitOrder`. -/
def c2ExtractWorld : World :=
  { bkFetch := fun _ => lpDetail, lookup := fun _ => none,
    search := fun _ => some closedUnitOrder, writeResp := fun _ => okWriteResp }

/-- Backfill world: one page of three items, item B's orchestrator call
throws. -/
def bfWorld : IndexA.BackfillWorld :=
  { pages := fun p =>
      if p = 0 then [{ id := some "A" }, { id := some "B" }, { id := some "C" }] else [],
    outcome := fun id =>
      if id = "B" then Except.error "boom" else Except.ok { ok := true, msg := "done" } }

/-! # Theorems

Helper lemmas about the shared write loop, then one theorem per claim
(with counterexamples and witnesses where the claim status calls for them).
-/

/-- If every reply up to the length of the unit list is error-free, the
write loop succeeds, issues one write per unit in order, and records one
result per unit. -/
theorem writeLoop_all_ok (wr : Nat → WriteResp) (info : TrackingInfo) :
    ∀ (fos : List FONode) (i : Nat),
      (∀ k, k < fos.length → (wr (i + k)).userErrors = []) →
      ∃ recs, writeLoop wr info fos i =
          (LoopOut.success recs, fos.map fun fo => RemoteCall.fulfillmentCreate fo.id info) ∧
        recs.length = fos.length := by
  intro fos
  induction fos with
  | nil => intro i _; exact ⟨[], rfl, rfl⟩
  | cons fo rest ih =>
    intro i h
    have h0 : (wr i).userErrors = [] := by simpa using h 0 (by simp)
    obtain ⟨recs, heq, hlen⟩ := ih (i + 1) (fun k hk => by
      have hk1 := h (k + 1) (by simpa using Nat.succ_lt_succ hk)
      rwa [show i + (k + 1) = i + 1 + k by omega] at hk1)
    refine ⟨{ fo := fo.id, fulfillmentId := (wr i).fulfillment.map Fulfillment.id,
              status := (wr i).fulfillment.map Fulfillment.status } :: recs, ?_, by simp [hlen]⟩
    simp [writeLoop, h0, heq]

/-- If the first `j` replies are error-free and reply `j` carries user
errors, the write loop issues exactly `j + 1` writes (the first `j + 1`
units, in order), aborts, and reports exactly reply `j`'s error list. -/
theorem writeLoop_fail (wr : Nat → WriteResp) (info : TrackingInfo) :
    ∀ (fos : List FONode) (i j : Nat), j < fos.length →
      (∀ k, k < j → (wr (i + k)).userErrors = []) →
      (wr (i + j)).userErrors ≠ [] →
      writeLoop wr info fos i =
        (LoopOut.failure ((wr (i + j)).userErrors),
         (fos.take (j + 1)).map fun fo => RemoteCall.fulfillmentCreate fo.id info) := by
  intro fos
  induction fos with
  | nil => intro i j hj; simp at hj
  | cons fo rest ih =>
    intro i j hj hpre hfail
    cases j with
    | zero =>
      have h0 : ¬(wr i).userErrors.isEmpty := by
        simpa [List.isEmpty_iff] using hfail
      simp [writeLoop, h0]
    | succ j' =>
      have h0 : (wr i).userErrors = [] := by
        simpa using hpre 0 (Nat.succ_pos _)
      have hrec := ih (i + 1) j' (by simpa using Nat.lt_of_succ_lt_succ hj)
        (fun k hk => by
          have hk1 := hpre (k + 1) (Nat.succ_lt_succ hk)
          rwa [show i + (k + 1) = i + 1 + k by omega] at hk1)
        (by rwa [show i + 1 + j' = i + (j' + 1) by omega])
      rw [show i + (j' + 1) = i + 1 + j' by omega]
      simp [writeLoop, h0, hrec]

/-- Every write issued by the write loop references a unit of the list the
loop was given. -/
theorem writeLoop_calls (wr : Nat → WriteResp) (info : TrackingInfo) :
    ∀ (fos : List FONode) (i : Nat) (fid : String) (inf2 : TrackingInfo),
      RemoteCall.fulfillmentCreate fid inf2 ∈ (writeLoop wr info fos i).2 →
      ∃ fo, fo ∈ fos ∧ fo.id = fid := by
  intro fos
  induction fos with
  | nil => intro i fid inf2 h; simp [writeLoop] at h
  | cons fo rest ih =>
    intro i fid inf2 h
    by_cases h0 : (wr i).userErrors.isEmpty
    · rcases hrec : writeLoop wr info rest (i + 1) with ⟨out, tr⟩
      cases out with
      | success recs =>
        simp [writeLoop, h0, hrec] at h
        rcases h with ⟨hfid, -⟩ | hmem
        · exact ⟨fo, by simp, hfid.symm⟩
        · obtain ⟨u, hu, hid⟩ := ih (i + 1) fid inf2 (by rw [hrec]; exact hmem)
          exact ⟨u, by simp [hu], hid⟩
      | failure errs =>
        simp [writeLoop, h0, hrec] at h
        rcases h with ⟨hfid, -⟩ | hmem
        · exact ⟨fo, by simp, hfid.symm⟩
        · obtain ⟨u, hu, hid⟩ := ih (i + 1) fid inf2 (by rw [hrec]; exact hmem)
          exact ⟨u, by simp [hu], hid⟩
    · simp [writeLoop, h0] at h
      exact ⟨fo, by simp, h.1.symm⟩

/-- Writes issued by `IndexA.fulfillWithTrackingOnOpenFOs` reference only
OPEN/IN_PROGRESS units of the looked-up order. -/
theorem indexA_fulfill_writes_open (lookup : String → Option ShopOrder)
    (wr : Nat → WriteResp) (gid tn : String) (url : Option String)
    (order : ShopOrder) (fid : String) (inf2 : TrackingInfo)
    (hlook : lookup gid = some order)
    (h : RemoteCall.fulfillmentCreate fid inf2 ∈
      (IndexA.fulfillWithTrackingOnOpenFOs lookup wr gid tn url).2) :
    ∃ u, u ∈ order.fulfillmentOrders ∧ u.id = fid ∧ isOpenFO u = true := by
  unfold IndexA.fulfillWithTrackingOnOpenFOs at h
  rw [hlook] at h
  by_cases hemp : (order.fulfillmentOrders.filter isOpenFO).isEmpty
  · simp [hemp] at h
  · rcases hloop : writeLoop wr { company := "Other", number := tn, url := url }
      (order.fulfillmentOrders.filter isOpenFO) 0 with ⟨out, tr⟩
    cases out with
    | success recs =>
      simp [hemp, hloop] at h
      obtain ⟨u, hu, hid⟩ := writeLoop_calls _ _ _ _ _ _ (by rw [hloop]; exact h)
      rw [List.mem_filter] at hu
      exact ⟨u, hu.1, hid, hu.2⟩
    | failure errs =>
      simp [hemp, hloop] at h
      obtain ⟨u, hu, hid⟩ := writeLoop_calls _ _ _ _ _ _ (by rw [hloop]; exact h)
      rw [List.mem_filter] at hu
      exact ⟨u, hu.1, hid, hu.2⟩

/-- Writes issued by `Part001.fulfillWithTrackingOnOpenFOs` reference only
OPEN/IN_PROGRESS units of the looked-up order. -/
theorem part001_fulfill_writes_open (lookup : String → Option ShopOrder)
    (wr : Nat → WriteResp) (gid carrier tn : String)
    (order : ShopOrder) (fid : String) (inf2 : TrackingInfo)
    (hlook : lookup gid = some order)
    (h : RemoteCall.fulfillmentCreate fid inf2 ∈
      (Part001.fulfillWithTrackingOnOpenFOs lookup wr gid carrier tn).2) :
    ∃ u, u ∈ order.fulfillmentOrders ∧ u.id = fid ∧ isOpenFO u = true := by
  unfold Part001.fulfillWithTrackingOnOpenFOs at h
  rw [hlook] at h
  by_cases hemp : (order.fulfillmentOrders.filter isOpenFO).isEmpty
  · simp [hemp] at h
  · rcases hloop : writeLoop wr { company := carrier, number := tn, url := none }
      (order.fulfillmentOrders.filter isOpenFO) 0 with ⟨out, tr⟩
    cases out with
    | success recs =>
      simp [hemp, hloop] at h
      obtain ⟨u, hu, hid⟩ := writeLoop_calls _ _ _ _ _ _ (by rw [hloop]; exact h)
      rw [List.mem_filter] at hu
      exact ⟨u, hu.1, hid, hu.2⟩
    | failure errs =>
      simp [hemp, hloop] at h
      obtain ⟨u, hu, hid⟩ := writeLoop_calls _ _ _ _ _ _ (by rw [hloop]; exact h)
      rw [List.mem_filter] at hu
      exact ⟨u, hu.1, hid, hu.2⟩

/-- Writes issued by the search-and-fulfill phase of part_000 reference only
OPEN/IN_PROGRESS units of the order the search returned. -/
theorem part000_resolve_writes_open (w : World) (carrier tn nm : String)
    (fid : String) (inf2 : TrackingInfo)
    (h : RemoteCall.fulfillmentCreate fid inf2 ∈
      (Part000.resolveAndFulfill w carrier tn nm).2) :
    ∃ q order, w.search q = some order ∧
      ∃ u, u ∈ order.fulfillmentOrders ∧ u.id = fid ∧ isOpenFO u = true := by
  unfold Part000.resolveAndFulfill at h
  cases hq : buildOrderQuery nm with
  | none => simp [hq] at h
  | some q =>
    cases hs : w.search q with
    | none => simp [hq, hs] at h
    | some order =>
      by_cases hemp : (order.fulfillmentOrders.filter isOpenFO).isEmpty
      · simp [hq, hs, hemp] at h
      · rcases hloop : writeLoop w.writeResp { company := carrier, number := tn, url := none }
          (order.fulfillmentOrders.filter isOpenFO) 0 with ⟨out, tr⟩
        cases out with
        | success recs =>
          simp [hq, hs, hemp, hloop] at h
          obtain ⟨u, hu, hid⟩ := writeLoop_calls _ _ _ _ _ _ (by rw [hloop]; exact h)
          rw [List.mem_filter] at hu
          exact ⟨q, order, hs, u, hu.1, hid, hu.2⟩
        | failure errs =>
          simp [hq, hs, hemp, hloop] at h
          obtain ⟨u, hu, hid⟩ := writeLoop_calls _ _ _ _ _ _ (by rw [hloop]; exact h)
          rw [List.mem_filter] at hu
          exact ⟨q, order, hs, u, hu.1, hid, hu.2⟩

/-- Writes issued by the part_000 handler reference only OPEN/IN_PROGRESS
units of the order the search returned. -/
theorem part000_handler_writes_open (w : World) (p : Payload)
    (fid : String) (inf2 : TrackingInfo)
    (h : RemoteCall.fulfillmentCreate fid inf2 ∈
      (Part000.handleBasitKargoWebhook w p).2) :
    ∃ q order, w.search q = some order ∧
      ∃ u, u ∈ order.fulfillmentOrders ∧ u.id = fid ∧ isOpenFO u = true := by
  by_cases hst : p.status = some "SHIPPED"
  · cases htn : jsTruthy p.handlerShipmentCode with
    | none => simp [Part000.handleBasitKargoWebhook, hst, htn] at h
    | some tn =>
      cases hname : firstTruthy [p.shopify_order, p.orderNumber, p.order_no, p.code, p.order] with
      | some s0 =>
        refine part000_resolve_writes_open w
          ((firstTruthy [p.handler.bind CarrierRef.name, p.handler.bind CarrierRef.code]).getD "Other")
          tn (Part000.normalizeOrderInput s0) fid inf2 ?_
        simpa [Part000.handleBasitKargoWebhook, hst, htn, hname] using h
      | none =>
        cases hid : jsTruthy p.id with
        | none => simp [Part000.handleBasitKargoWebhook, hst, htn, hname, hid] at h
        | some pid =>
          cases hext : Part000.extractShopifyOrderNameFromBasitKargo (w.bkFetch pid) with
          | none => simp [Part000.handleBasitKargoWebhook, hst, htn, hname, hid, hext] at h
          | some nm =>
            refine part000_resolve_writes_open w
              ((firstTruthy [p.handler.bind CarrierRef.name, p.handler.bind CarrierRef.code]).getD "Other")
              tn nm fid inf2 ?_
            simpa [Part000.handleBasitKargoWebhook, hst, htn, hname, hid, hext] using h
  · simp [Part000.handleBasitKargoWebhook, hst] at h

/-- Claim C1 (amended): in the variants whose write path filters the
fulfillment-unit list (the first src/index.js program, part_000 and
part_001), every fulfillment-creation write references a unit of the
resolved order whose status is OPEN or IN_PROGRESS.  The claim's universal
form over all variants fails: `handleShipmentToShopify` falls back to the
first unit regardless of status (see the counterexample). -/
theorem c1_writes_reference_open_units :
    (∀ (lookup : String → Option ShopOrder) (wr : Nat → WriteResp)
       (gid tn : String) (url : Option String) (order : ShopOrder)
       (fid : String) (inf2 : TrackingInfo),
       lookup gid = some order →
       RemoteCall.fulfillmentCreate fid inf2 ∈
         (IndexA.fulfillWithTrackingOnOpenFOs lookup wr gid tn url).2 →
       ∃ u, u ∈ order.fulfillmentOrders ∧ u.id = fid ∧ isOpenFO u = true) ∧
    (∀ (lookup : String → Option ShopOrder) (wr : Nat → WriteResp)
       (gid carrier tn : String) (order : ShopOrder)
       (fid : String) (inf2 : TrackingInfo),
       lookup gid = some order →
       RemoteCall.fulfillmentCreate fid inf2 ∈
         (Part001.fulfillWithTrackingOnOpenFOs lookup wr gid carrier tn).2 →
       ∃ u, u ∈ order.fulfillmentOrders ∧ u.id = fid ∧ isOpenFO u = true) ∧
    (∀ (w : World) (p : Payload) (fid : String) (inf2 : TrackingInfo),
       RemoteCall.fulfillmentCreate fid inf2 ∈
         (Part000.handleBasitKargoWebhook w p).2 →
       ∃ q order, w.search q = some order ∧
         ∃ u, u ∈ order.fulfillmentOrders ∧ u.id = fid ∧ isOpenFO u = true) :=
  ⟨fun lookup wr gid tn url order fid inf2 hlook h =>
     indexA_fulfill_writes_open lookup wr gid tn url order fid inf2 hlook h,
   fun lookup wr gid carrier tn order fid inf2 hlook h =>
     part001_fulfill_writes_open lookup wr gid carrier tn order fid inf2 hlook h,
   fun w p fid inf2 h => part000_handler_writes_open w p fid inf2 h⟩

/-- Claim C1 counterexample: under `handleShipmentToShopify`, an order whose
only fulfillment unit is CLOSED still receives a fulfillment-creation write
(the fallback `|| foEdges[0]?.node`), so the invariant "no execution path of
any variant issues a write that references a unit in any other status" is
false at this input. -/
theorem c1_closed_unit_written_counterexample :
    writesOnlyOpen closedUnitOrder.fulfillmentOrders
      (IndexB.handleShipmentToShopify true worldBClosed shippedPayload9).2 = false ∧
    hasWriteCall (IndexB.handleShipmentToShopify true worldBClosed shippedPayload9).2 = true := by
  exact ⟨by decide, by decide⟩

/-- Claim C1 witness: a concrete IndexA run whose single write does land on
an OPEN unit of the resolved order. -/
theorem c1_writes_reference_open_units_witness :
    RemoteCall.fulfillmentCreate "fo_1" { company := "Other", number := "TN", url := none } ∈
      (IndexA.fulfillWithTrackingOnOpenFOs lookupOpen okWrites "gid://shopify/Order/1" "TN" none).2 ∧
    ∃ u, u ∈ openUnitOrder.fulfillmentOrders ∧ u.id = "fo_1" ∧ isOpenFO u = true :=
  ⟨by decide,
   c1_writes_reference_open_units.1 lookupOpen okWrites "gid://shopify/Order/1" "TN" none
     openUnitOrder "fo_1" { company := "Other", number := "TN", url := none } rfl (by decide)⟩

/-- IndexA's fulfillment phase is a successful no-op when the open filter is
empty. -/
theorem indexA_fulfill_noop (lookup : String → Option ShopOrder)
    (wr : Nat → WriteResp) (gid tn : String) (url : Option String)
    (order : ShopOrder) (hlook : lookup gid = some order)
    (hfil : order.fulfillmentOrders.filter isOpenFO = []) :
    IndexA.fulfillWithTrackingOnOpenFOs lookup wr gid tn url =
      ({ ok := true, msg := noOpenMsg order.name }, [RemoteCall.shopifyOrderById gid]) := by
  unfold IndexA.fulfillWithTrackingOnOpenFOs
  simp [hlook, hfil]

/-- Part001's fulfillment phase is a successful no-op when the open filter
is empty. -/
theorem part001_fulfill_noop (lookup : String → Option ShopOrder)
    (wr : Nat → WriteResp) (gid carrier tn : String)
    (order : ShopOrder) (hlook : lookup gid = some order)
    (hfil : order.fulfillmentOrders.filter isOpenFO = []) :
    Part001.fulfillWithTrackingOnOpenFOs lookup wr gid carrier tn =
      ({ ok := true, msg := noOpenMsg order.name }, [RemoteCall.shopifyOrderById gid]) := by
  unfold Part001.fulfillWithTrackingOnOpenFOs
  simp [hlook, hfil]

/-- Part000's handler is a successful no-op when the searched order's open
filter is empty (payload-supplied order name path). -/
theorem part000_handler_noop (w : World) (p : Payload) (tn s0 q : String)
    (order : ShopOrder)
    (hst : p.status = some "SHIPPED")
    (htn : jsTruthy p.handlerShipmentCode = some tn)
    (hname : firstTruthy [p.shopify_order, p.orderNumber, p.order_no, p.code, p.order] = some s0)
    (hq : buildOrderQuery (Part000.normalizeOrderInput s0) = some q)
    (hs : w.search q = some order)
    (hfil : order.fulfillmentOrders.filter isOpenFO = []) :
    Part000.handleBasitKargoWebhook w p =
      ({ ok := true, msg := noOpenMsg order.name }, [RemoteCall.shopifySearch q]) := by
  unfold Part000.handleBasitKargoWebhook Part000.resolveAndFulfill
  simp [hst, htn, hname, hq, hs, hfil]

/-- Part000's handler is a successful no-op when the searched order's open
filter is empty, on its other branch: the order name extracted from the
fetched BasitKargo detail. -/
theorem part000_handler_noop_extracted (w : World) (p : Payload)
    (tn pid nm q : String) (order : ShopOrder)
    (hst : p.status = some "SHIPPED")
    (htn : jsTruthy p.handlerShipmentCode = some tn)
    (hname : firstTruthy [p.shopify_order, p.orderNumber, p.order_no, p.code, p.order] = none)
    (hid : jsTruthy p.id = some pid)
    (hext : Part000.extractShopifyOrderNameFromBasitKargo (w.bkFetch pid) = some nm)
    (hq : buildOrderQuery nm = some q)
    (hs : w.search q = some order)
    (hfil : order.fulfillmentOrders.filter isOpenFO = []) :
    Part000.handleBasitKargoWebhook w p =
      ({ ok := true, msg := noOpenMsg order.name },
       [RemoteCall.bkFetch pid, RemoteCall.shopifySearch q]) := by
  unfold Part000.handleBasitKargoWebhook Part000.resolveAndFulfill
  simp [hst, htn, hname, hid, hext, hq, hs, hfil]

/-- Claim C2 (amended): in the three variants whose write path filters the
unit list, an order whose filtered OPEN/IN_PROGRESS list is empty yields a
successful outcome whose message says the order is already
fulfilled/closed, with zero fulfillment-creation writes — for part_000's
handler on both of its converging branches: the payload-supplied order name
and the name extracted from the fetched BasitKargo detail.
`handleShipmentToShopify` does not obey this: it falls back to the first
unit (see the counterexample). -/
theorem c2_no_open_units_noop :
    (∀ (lookup : String → Option ShopOrder) (wr : Nat → WriteResp)
       (gid tn : String) (url : Option String) (order : ShopOrder),
       lookup gid = some order →
       order.fulfillmentOrders.filter isOpenFO = [] →
       IndexA.fulfillWithTrackingOnOpenFOs lookup wr gid tn url =
         ({ ok := true, msg := noOpenMsg order.name }, [RemoteCall.shopifyOrderById gid]) ∧
       hasWriteCall (IndexA.fulfillWithTrackingOnOpenFOs lookup wr gid tn url).2 = false) ∧
    (∀ (lookup : String → Option ShopOrder) (wr : Nat → WriteResp)
       (gid carrier tn : String) (order : ShopOrder),
       lookup gid = some order →
       order.fulfillmentOrders.filter isOpenFO = [] →
       Part001.fulfillWithTrackingOnOpenFOs lookup wr gid carrier tn =
         ({ ok := true, msg := noOpenMsg order.name }, [RemoteCall.shopifyOrderById gid]) ∧
       hasWriteCall (Part001.fulfillWithTrackingOnOpenFOs lookup wr gid carrier tn).2 = false) ∧
    (∀ (w : World) (p : Payload) (tn s0 q : String) (order : ShopOrder),
       p.status = some "SHIPPED" →
       jsTruthy p.handlerShipmentCode = some tn →
       firstTruthy [p.shopify_order, p.orderNumber, p.order_no, p.code, p.order] = some s0 →
       buildOrderQuery (Part000.normalizeOrderInput s0) = some q →
       w.search q = some order →
       order.fulfillmentOrders.filter isOpenFO = [] →
       Part000.handleBasitKargoWebhook w p =
         ({ ok := true, msg := noOpenMsg order.name }, [RemoteCall.shopifySearch q]) ∧
       hasWriteCall (Part000.handleBasitKargoWebhook w p).2 = false) ∧
    (∀ (w : World) (p : Payload) (tn pid nm q : String) (order : ShopOrder),
       p.status = some "SHIPPED" →
       jsTruthy p.handlerShipmentCode = some tn →
       firstTruthy [p.shopify_order, p.orderNumber, p.order_no, p.code, p.order] = none →
       jsTruthy p.id = some pid →
       Part000.extractShopifyOrderNameFromBasitKargo (w.bkFetch pid) = some nm →
       buildOrderQuery nm = some q →
       w.search q = some order →
       order.fulfillmentOrders.filter isOpenFO = [] →
       Part000.handleBasitKargoWebhook w p =
         ({ ok := true, msg := noOpenMsg order.name },
          [RemoteCall.bkFetch pid, RemoteCall.shopifySearch q]) ∧
       hasWriteCall (Part000.handleBasitKargoWebhook w p).2 = false) := by
  refine ⟨fun lookup wr gid tn url order hlook hfil => ?_,
          fun lookup wr gid carrier tn order hlook hfil => ?_,
          fun w p tn s0 q order hst htn hname hq hs hfil => ?_,
          fun w p tn pid nm q order hst htn hname hid hext hq hs hfil => ?_⟩
  · have h := indexA_fulfill_noop lookup wr gid tn url order hlook hfil
    exact ⟨h, by rw [h]; rfl⟩
  · have h := part001_fulfill_noop lookup wr gid carrier tn order hlook hfil
    exact ⟨h, by rw [h]; rfl⟩
  · have h := part000_handler_noop w p tn s0 q order hst htn hname hq hs hfil
    exact ⟨h, by rw [h]; rfl⟩
  · have h := part000_handler_noop_extracted w p tn pid nm q order hst htn hname hid hext hq hs hfil
    exact ⟨h, by rw [h]; rfl⟩

/-- Claim C2 counterexample: `handleShipmentToShopify` on an order whose
filtered OPEN/IN_PROGRESS list is empty issues a write anyway and reports a
plain success message, not the already-fulfilled/closed no-op. -/
theorem c2_fallback_write_counterexample :
    closedUnitOrder.fulfillmentOrders.filter isOpenFO = [] ∧
    hasWriteCall (IndexB.handleShipmentToShopify true worldBClosed shippedPayload9).2 = true ∧
    (IndexB.handleShipmentToShopify true worldBClosed shippedPayload9).1.msg ≠
      noOpenMsg closedUnitOrder.name := by
  exact ⟨by decide, by decide, by decide⟩

/-- Claim C2 witness: a concrete IndexA run over an all-CLOSED order is a
successful no-op with zero writes, and so is a part_000 run whose order
name comes from the fetched BasitKargo detail. -/
theorem c2_no_open_units_noop_witness :
    closedUnitOrder.fulfillmentOrders.filter isOpenFO = [] ∧
    (IndexA.fulfillWithTrackingOnOpenFOs lookupClosed okWrites "gid://shopify/Order/9" "TN" none =
      ({ ok := true, msg := noOpenMsg closedUnitOrder.name }, [RemoteCall.shopifyOrderById "gid://shopify/Order/9"]) ∧
     hasWriteCall (IndexA.fulfillWithTrackingOnOpenFOs lookupClosed okWrites "gid://shopify/Order/9" "TN" none).2 = false) ∧
    Part000.extractShopifyOrderNameFromBasitKargo (c2ExtractWorld.bkFetch "BK-6") = some "#LP-1009" ∧
    (Part000.handleBasitKargoWebhook c2ExtractWorld part000Payload =
      ({ ok := true, msg := noOpenMsg closedUnitOrder.name },
       [RemoteCall.bkFetch "BK-6", RemoteCall.shopifySearch "name:\"#LP-1009\" OR name:\"LP-1009\""]) ∧
     hasWriteCall (Part000.handleBasitKargoWebhook c2ExtractWorld part000Payload).2 = false) :=
  ⟨by decide,
   c2_no_open_units_noop.1 lookupClosed okWrites "gid://shopify/Order/9" "TN" none
     closedUnitOrder rfl (by decide),
   by decide,
   c2_no_open_units_noop.2.2.2 c2ExtractWorld part000Payload "TN6" "BK-6" "#LP-1009"
     "name:\"#LP-1009\" OR name:\"LP-1009\"" closedUnitOrder rfl (by decide) (by decide)
     (by decide) (by decide) (by decide) rfl (by decide)⟩

/-- A list of fulfillment-creation calls passes the `writeCalls` filter
unchanged. -/
theorem writeCalls_map_create (l : List FONode) (info : TrackingInfo) :
    writeCalls (l.map fun fo => RemoteCall.fulfillmentCreate fo.id info) =
      l.map fun fo => RemoteCall.fulfillmentCreate fo.id info := by
  induction l with
  | nil => rfl
  | cons fo rest ih => simp [writeCalls, isWriteCall, ih]

/-- Claim C3: over the `N` open units of a resolved order, the write phase
of `fulfillWithTrackingOnOpenFOs` (first src/index.js program; part_000
runs the identical loop) makes exactly `N` write calls on success and
reports a comma-joined fulfillment-id list of length `N`; if reply `j`
(0-based; the claim's k-th unit, k = j+1) is the first with a non-empty
`userErrors`, exactly `j + 1` write calls are made — the first `j + 1`
units in order, the earlier `j` writes staying issued — no further unit is
attempted, the outcome is a failure, and the JSON-serialized error list
appears verbatim in the message. -/
theorem c3_write_sequence (lookup : String → Option ShopOrder) (wr : Nat → WriteResp)
    (gid tn : String) (url : Option String) (order : ShopOrder)
    (hlook : lookup gid = some order)
    (hne : order.fulfillmentOrders.filter isOpenFO ≠ []) :
    ((∀ k, k < (order.fulfillmentOrders.filter isOpenFO).length → (wr k).userErrors = []) →
      (IndexA.fulfillWithTrackingOnOpenFOs lookup wr gid tn url).1.ok = true ∧
      writeCalls (IndexA.fulfillWithTrackingOnOpenFOs lookup wr gid tn url).2 =
        (order.fulfillmentOrders.filter isOpenFO).map
          (fun fo => RemoteCall.fulfillmentCreate fo.id { company := "Other", number := tn, url := url }) ∧
      (writeCalls (IndexA.fulfillWithTrackingOnOpenFOs lookup wr gid tn url).2).length =
        (order.fulfillmentOrders.filter isOpenFO).length ∧
      ∃ ids, ids.length = (order.fulfillmentOrders.filter isOpenFO).length ∧
        (IndexA.fulfillWithTrackingOnOpenFOs lookup wr gid tn url).1.msg =
          "OK: " ++ order.name ++ " tracking=" ++ tn ++ " fulfillments=" ++
            String.intercalate "," ids) ∧
    (∀ j, j < (order.fulfillmentOrders.filter isOpenFO).length →
      (∀ k, k < j → (wr k).userErrors = []) →
      (wr j).userErrors ≠ [] →
      (IndexA.fulfillWithTrackingOnOpenFOs lookup wr gid tn url).1.ok = false ∧
      (IndexA.fulfillWithTrackingOnOpenFOs lookup wr gid tn url).1.msg =
        "Shopify userErrors: " ++ jsonUserErrors ((wr j).userErrors) ∧
      writeCalls (IndexA.fulfillWithTrackingOnOpenFOs lookup wr gid tn url).2 =
        ((order.fulfillmentOrders.filter isOpenFO).take (j + 1)).map
          (fun fo => RemoteCall.fulfillmentCreate fo.id { company := "Other", number := tn, url := url }) ∧
      (writeCalls (IndexA.fulfillWithTrackingOnOpenFOs lookup wr gid tn url).2).length = j + 1) := by
  have hne' : (order.fulfillmentOrders.filter isOpenFO).isEmpty = false := by
    simpa [List.isEmpty_iff] using hne
  constructor
  · intro hall
    obtain ⟨recs, heq, hlen⟩ := writeLoop_all_ok wr
      { company := "Other", number := tn, url := url }
      (order.fulfillmentOrders.filter isOpenFO) 0
      (fun k hk => by simpa using hall k hk)
    have hout : IndexA.fulfillWithTrackingOnOpenFOs lookup wr gid tn url =
        ({ ok := true, msg := successMsg order.name tn recs },
         RemoteCall.shopifyOrderById gid ::
           (order.fulfillmentOrders.filter isOpenFO).map
             (fun fo => RemoteCall.fulfillmentCreate fo.id { company := "Other", number := tn, url := url })) := by
      unfold IndexA.fulfillWithTrackingOnOpenFOs
      simp [hlook, hne', heq]
    rw [hout]
    refine ⟨rfl, ?_, ?_, ?_⟩
    · simp only [writeCalls, List.filter, isWriteCall]
      exact writeCalls_map_create _ _
    swap
    · exact ⟨recs.map (fun r => r.fulfillmentId.getD ""), by simp [hlen],
        by unfold successMsg; rfl⟩
    · rw [show writeCalls (RemoteCall.shopifyOrderById gid ::
          (order.fulfillmentOrders.filter isOpenFO).map
            (fun fo => RemoteCall.fulfillmentCreate fo.id { company := "Other", number := tn, url := url })) =
          writeCalls ((order.fulfillmentOrders.filter isOpenFO).map
            (fun fo => RemoteCall.fulfillmentCreate fo.id { company := "Other", number := tn, url := url }))
          from rfl, writeCalls_map_create]
      simp
  · intro j hj hpre hfail
    have heq := writeLoop_fail wr { company := "Other", number := tn, url := url }
      (order.fulfillmentOrders.filter isOpenFO) 0 j hj
      (fun k hk => by simpa using hpre k hk) (by simpa using hfail)
    have hout : IndexA.fulfillWithTrackingOnOpenFOs lookup wr gid tn url =
        ({ ok := false, msg := "Shopify userErrors: " ++ jsonUserErrors ((wr (0 + j)).userErrors) },
         RemoteCall.shopifyOrderById gid ::
           ((order.fulfillmentOrders.filter isOpenFO).take (j + 1)).map
             (fun fo => RemoteCall.fulfillmentCreate fo.id { company := "Other", number := tn, url := url })) := by
      unfold IndexA.fulfillWithTrackingOnOpenFOs
      simp [hlook, hne', heq]
    rw [hout]
    refine ⟨rfl, by simp, ?_, ?_⟩
    · rw [show writeCalls (RemoteCall.shopifyOrderById gid ::
          ((order.fulfillmentOrders.filter isOpenFO).take (j + 1)).map
            (fun fo => RemoteCall.fulfillmentCreate fo.id { company := "Other", number := tn, url := url })) =
          writeCalls (((order.fulfillmentOrders.filter isOpenFO).take (j + 1)).map
            (fun fo => RemoteCall.fulfillmentCreate fo.id { company := "Other", number := tn, url := url }))
          from rfl, writeCalls_map_create]
    · rw [show writeCalls (RemoteCall.shopifyOrderById gid ::
          ((order.fulfillmentOrders.filter isOpenFO).take (j + 1)).map
            (fun fo => RemoteCall.fulfillmentCreate fo.id { company := "Other", number := tn, url := url })) =
          writeCalls (((order.fulfillmentOrders.filter isOpenFO).take (j + 1)).map
            (fun fo => RemoteCall.fulfillmentCreate fo.id { company := "Other", number := tn, url := url }))
          from rfl, writeCalls_map_create]
      simp [List.length_take]
      omega

/-- Claim C3 witness: a two-open-unit order with all writes succeeding gets
exactly two write calls and an ok outcome. -/
theorem c3_write_sequence_witness :
    (IndexA.fulfillWithTrackingOnOpenFOs lookupTwoOpen okWrites "gid://shopify/Order/2" "TN" none).1.ok = true ∧
    (writeCalls (IndexA.fulfillWithTrackingOnOpenFOs lookupTwoOpen okWrites "gid://shopify/Order/2" "TN" none).2).length =
      (twoOpenOrder.fulfillmentOrders.filter isOpenFO).length :=
  have h := (c3_write_sequence lookupTwoOpen okWrites "gid://shopify/Order/2" "TN" none
    twoOpenOrder rfl (by decide)).1 (fun k _ => rfl)
  ⟨h.1, h.2.2.1⟩

/-- Claim C4 (amended): a *present* status outside the actionable set makes
every handler terminate at once with a success outcome and an empty remote
trace; part_000, part_001 and `handleShipmentToShopify` also ignore an
*absent* status, but the first src/index.js program checks the status only
when it is truthy, so an absent (or empty) status there proceeds to
resolution (see the counterexample). -/
theorem c4_nonactionable_status_ignored :
    (∀ (w : World) (p : Payload) (st : String),
       jsTruthy p.status = some st →
       st ≠ "READY_TO_SHIP" → st ≠ "SHIPPED" →
       (IndexA.handleBasitKargoWebhook w p).1.ok = true ∧
       (IndexA.handleBasitKargoWebhook w p).2 = []) ∧
    (∀ (w : World) (p : Payload),
       p.status ≠ some "READY_TO_SHIP" → p.status ≠ some "SHIPPED" →
       Part001.handleBasitKargoWebhook w p = ({ ok := true, msg := "Ignored" }, [])) ∧
    (∀ (w : World) (p : Payload),
       p.status ≠ some "SHIPPED" →
       Part000.handleBasitKargoWebhook w p = ({ ok := true, msg := "Ignored" }, [])) ∧
    (∀ (w : IndexB.WorldB) (p : Payload),
       p.status ≠ some "SHIPPED" →
       IndexB.handleShipmentToShopify true w p = ({ ok := true, msg := "Ignored" }, [])) := by
  refine ⟨fun w p st hst h1 h2 => ?_, fun w p h1 h2 => ?_, fun w p h => ?_, fun w p h => ?_⟩
  · have hb : (st == "READY_TO_SHIP" || st == "SHIPPED") = false := by simp [h1, h2]
    cases hid : jsTruthy p.id with
    | none => simp [IndexA.handleBasitKargoWebhook, hid]
    | some pid => simp [IndexA.handleBasitKargoWebhook, hid, hst, hb]
  · unfold Part001.handleBasitKargoWebhook
    cases hps : p.status with
    | none => simp
    | some s =>
      have hs1 : s ≠ "READY_TO_SHIP" := fun hc => h1 (by rw [hps, hc])
      have hs2 : s ≠ "SHIPPED" := fun hc => h2 (by rw [hps, hc])
      simp [hs1, hs2]
  · unfold Part000.handleBasitKargoWebhook
    simp [h]
  · unfold IndexB.handleShipmentToShopify
    simp [h]

/-- Claim C4 counterexample: the first src/index.js program's handler, on a
payload with an id but no status field (a status outside the actionable
set), does not ignore the event: it issues the BasitKargo fetch and ends in
failure, not in a successful Ignored outcome. -/
theorem c4_absent_status_proceeds_counterexample :
    noStatusPayload.status = none ∧
    (IndexA.handleBasitKargoWebhook emptyWorld noStatusPayload).2 = [RemoteCall.bkFetch "BK-1"] ∧
    (IndexA.handleBasitKargoWebhook emptyWorld noStatusPayload).1.ok = false := by
  exact ⟨by decide, by decide, by decide⟩

/-- Claim C4 witness: a CANCELLED event is ignored with no remote calls by
the first src/index.js program. -/
theorem c4_nonactionable_status_ignored_witness :
    jsTruthy cancelledPayload.status = some "CANCELLED" ∧
    (IndexA.handleBasitKargoWebhook emptyWorld cancelledPayload).1.ok = true ∧
    (IndexA.handleBasitKargoWebhook emptyWorld cancelledPayload).2 = [] :=
  have h := c4_nonactionable_status_ignored.1 emptyWorld cancelledPayload "CANCELLED"
    (by decide) (by decide) (by decide)
  ⟨by decide, h.1, h.2⟩

/-- `upChar` fixes decimal digits. -/
theorem upChar_digit (c : Char) (h : isDigitChar c = true) : upChar c = c := by
  simp only [isDigitChar, Bool.or_eq_true, beq_iff_eq] at h
  rcases h with ((((((((rfl | rfl) | rfl) | rfl) | rfl) | rfl) | rfl) | rfl) | rfl) | rfl <;>
    decide

/-- `upChar 'L' = 'L'`. -/
theorem upChar_L : upChar 'L' = 'L' := by decide

/-- `upChar 'l' = 'L'`. -/
theorem upChar_ll : upChar 'l' = 'L' := by decide

/-- `upChar 'P' = 'P'`. -/
theorem upChar_P : upChar 'P' = 'P' := by decide

/-- `upChar 'p' = 'P'`. -/
theorem upChar_pp : upChar 'p' = 'P' := by decide

/-- `upChar` fixes the hyphen. -/
theorem upChar_hyphen : upChar '-' = '-' := by decide

/-- Uppercasing a digit string changes nothing. -/
theorem map_upChar_digits : ∀ ds : List Char, ds.all isDigitChar = true →
    ds.map upChar = ds := by
  intro ds
  induction ds with
  | nil => intro _; rfl
  | cons c cs ih =>
    intro h
    simp only [List.all_cons, Bool.and_eq_true] at h
    simp [upChar_digit c h.1, ih h.2]

/-- Shape of a list passing `lpCore`. -/
theorem lpCore_decomp (cs : List Char) (h : lpCore cs = true) :
    ∃ a b ds, cs = a :: b :: '-' :: ds ∧ (a = 'L' ∨ a = 'l') ∧ (b = 'P' ∨ b = 'p') ∧
      ds ≠ [] ∧ ds.all isDigitChar = true := by
  rcases cs with _ | ⟨a, _ | ⟨b, _ | ⟨c, ds⟩⟩⟩
  · simp [lpCore] at h
  · simp [lpCore] at h
  · simp [lpCore] at h
  · unfold lpCore at h
    simp only [Bool.and_eq_true, Bool.or_eq_true, beq_iff_eq, Bool.not_eq_true',
      List.isEmpty_iff] at h
    obtain ⟨⟨⟨⟨ha, hb⟩, hc⟩, hne⟩, hall⟩ := h
    exact ⟨a, b, ds, by rw [hc], ha, hb, by simpa [List.isEmpty_iff] using hne, hall⟩

/-- Shape of a string passing the `/^#?LP-\d+$/i` test. -/
theorem matchesLp_decomp (s : String) (h : matchesLp s = true) :
    ∃ a b ds, (s.data = '#' :: a :: b :: '-' :: ds ∨ s.data = a :: b :: '-' :: ds) ∧
      (a = 'L' ∨ a = 'l') ∧ (b = 'P' ∨ b = 'p') ∧ ds ≠ [] ∧ ds.all isDigitChar = true := by
  rcases hd : s.data with _ | ⟨c, rest⟩
  · simp [matchesLp, hd] at h
  · by_cases hc : c = '#'
    · subst hc
      have h2 : lpCore rest = true := by simpa [matchesLp, hd] using h
      obtain ⟨a, b, ds, hrest, ha, hb, hne, hall⟩ := lpCore_decomp rest h2
      exact ⟨a, b, ds, Or.inl (by rw [hrest]), ha, hb, hne, hall⟩
    · have h2 : lpCore (c :: rest) = true := by simpa [matchesLp, hd, hc] using h
      obtain ⟨a, b, ds, heq, ha, hb, hne, hall⟩ := lpCore_decomp (c :: rest) h2
      exact ⟨a, b, ds, Or.inr heq, ha, hb, hne, hall⟩

/-- The normal form built from any string passing the LP test is
`#LP-<digits>`: a single leading hash, uppercase letters, the digits kept. -/
theorem normalizeLpName_form (s : String) (h : matchesLp s = true) :
    ∃ ds, (Part000.normalizeLpName s).data = '#' :: 'L' :: 'P' :: '-' :: ds ∧
      ds ≠ [] ∧ ds.all isDigitChar = true := by
  obtain ⟨a, b, ds, hcase, ha, hb, hne, hall⟩ := matchesLp_decomp s h
  refine ⟨ds, ?_, hne, hall⟩
  unfold Part000.normalizeLpName jsToUpper dropHash
  rcases hcase with hd | hd
  · rw [hd]
    rcases ha with rfl | rfl <;> rcases hb with rfl | rfl <;>
      simp [map_upChar_digits ds hall, upChar_L, upChar_ll, upChar_P, upChar_pp, upChar_hyphen]
  · rw [hd]
    rcases ha with rfl | rfl <;> rcases hb with rfl | rfl <;>
      simp [hd, map_upChar_digits ds hall, upChar_L, upChar_ll, upChar_P, upChar_pp, upChar_hyphen]

/-- A string of shape `#LP-<digits>` passes the LP test. -/
theorem matchesLp_normal (n : String) (ds : List Char)
    (hd : n.data = '#' :: 'L' :: 'P' :: '-' :: ds) (hne : ds ≠ [])
    (hall : ds.all isDigitChar = true) : matchesLp n = true := by
  unfold matchesLp
  rw [hd]
  simp [lpCore, List.isEmpty_iff, hne, hall]

/-- Normalization fixes strings already of shape `#LP-<digits>`. -/
theorem normalizeLpName_fixed (n : String) (ds : List Char)
    (hd : n.data = '#' :: 'L' :: 'P' :: '-' :: ds)
    (hall : ds.all isDigitChar = true) : Part000.normalizeLpName n = n := by
  apply String.ext
  unfold Part000.normalizeLpName jsToUpper dropHash
  rw [hd]
  simp [hd, map_upChar_digits ds hall, upChar_L, upChar_P, upChar_hyphen]

/-- `find?` skips a prefix on which the predicate is false. -/
theorem find?_prefix_false {α : Type} (p : α → Bool) :
    ∀ (l1 l2 : List α), (∀ t ∈ l1, p t = false) →
      (l1 ++ l2).find? p = l2.find? p := by
  intro l1
  induction l1 with
  | nil => intro l2 _; rfl
  | cons a l ih =>
    intro l2 h
    have ha := h a (by simp)
    simp only [List.cons_append, List.find?, ha]
    exact ih l2 (fun t ht => h t (by simp [ht]))

/-- Claim C5: a candidate string matching `#?LP-\d+` (any case, with or
without the hash) is returned normalized to `#LP-<digits>` — uppercase with
a single leading hash — both by `extractShopifyOrderNameFromBasitKargo`
(when that candidate is the first match in the probed field list) and by the
handler's inline normalization of a payload-supplied order name; re-running
extraction on the normalized result returns the same value. -/
theorem c5_lp_identifier_normalization (s : String) (bk bk2 : BkDetail)
    (cs1 cs2 : List String)
    (hm : matchesLp s = true)
    (hbk : Part000.candidatesOf bk = cs1 ++ s :: cs2)
    (hpre : ∀ t ∈ cs1, matchesLp t = false)
    (hbk2 : Part000.candidatesOf bk2 = [Part000.normalizeLpName s]) :
    Part000.extractShopifyOrderNameFromBasitKargo bk = some (Part000.normalizeLpName s) ∧
    (∃ ds, (Part000.normalizeLpName s).data = '#' :: 'L' :: 'P' :: '-' :: ds ∧
      ds ≠ [] ∧ ds.all isDigitChar = true) ∧
    Part000.extractShopifyOrderNameFromBasitKargo bk2 = some (Part000.normalizeLpName s) ∧
    (jsTrim s = s → Part000.normalizeOrderInput s = Part000.normalizeLpName s) := by
  obtain ⟨ds, hform, hne, hall⟩ := normalizeLpName_form s hm
  refine ⟨?_, ⟨ds, hform, hne, hall⟩, ?_, ?_⟩
  · unfold Part000.extractShopifyOrderNameFromBasitKargo Part000.extractFromCandidates
    rw [hbk, find?_prefix_false _ cs1 (s :: cs2) hpre]
    simp [List.find?, hm]
  · unfold Part000.extractShopifyOrderNameFromBasitKargo Part000.extractFromCandidates
    rw [hbk2]
    have hmn := matchesLp_normal _ ds hform hne hall
    simp [List.find?, hmn, normalizeLpName_fixed _ ds hform hall]
  · intro htr
    unfold Part000.normalizeOrderInput
    rw [htr]
    simp [hm]

/-- Claim C5 witness: `#lp-1009` is normalized to `#LP-1009`, and
re-extraction of the normalized value is the identity. -/
theorem c5_lp_identifier_normalization_witness :
    matchesLp "#lp-1009" = true ∧
    Part000.extractShopifyOrderNameFromBasitKargo lpDetail =
      some (Part000.normalizeLpName "#lp-1009") ∧
    Part000.extractShopifyOrderNameFromBasitKargo lpDetailNorm =
      some (Part000.normalizeLpName "#lp-1009") ∧
    Part000.normalizeLpName "#lp-1009" = "#LP-1009" :=
  have h := c5_lp_identifier_normalization "#lp-1009" lpDetail lpDetailNorm [] []
    (by decide) (by decide) (by simp) (by decide)
  ⟨by decide, h.1, h.2.2.1, by decide⟩

/-- Claim C6: when no identifier-bearing candidate field of the remote
detail holds a usable value (the filtered candidate list is empty),
extraction returns `none` — it is a total function, it cannot throw — and
the part_000 handler, on the path that needs the extraction, returns a
failed outcome carrying the diagnostic message. -/
theorem c6_unresolvable_detail_fails (w : World) (p : Payload) (tn pid : String)
    (hst : p.status = some "SHIPPED")
    (htn : jsTruthy p.handlerShipmentCode = some tn)
    (hname : firstTruthy [p.shopify_order, p.orderNumber, p.order_no, p.code, p.order] = none)
    (hid : jsTruthy p.id = some pid)
    (hcand : Part000.candidatesOf (w.bkFetch pid) = []) :
    Part000.extractShopifyOrderNameFromBasitKargo (w.bkFetch pid) = none ∧
    Part000.handleBasitKargoWebhook w p =
      ({ ok := false, msg := Part000.missingCodeMsg }, [RemoteCall.bkFetch pid]) := by
  have hext : Part000.extractShopifyOrderNameFromBasitKargo (w.bkFetch pid) = none := by
    unfold Part000.extractShopifyOrderNameFromBasitKargo
    rw [hcand]
    rfl
  refine ⟨hext, ?_⟩
  unfold Part000.handleBasitKargoWebhook
  simp [hst, htn, hname, hid, hext]

/-- Claim C6 witness: the empty detail resolves nothing and the handler
fails with the diagnostic. -/
theorem c6_unresolvable_detail_fails_witness :
    Part000.candidatesOf (emptyWorld.bkFetch "BK-6") = [] ∧
    Part000.extractShopifyOrderNameFromBasitKargo (emptyWorld.bkFetch "BK-6") = none ∧
    (Part000.handleBasitKargoWebhook emptyWorld part000Payload).1.ok = false :=
  have h := c6_unresolvable_detail_fails emptyWorld part000Payload "TN6" "BK-6"
    rfl (by decide) (by decide) (by decide) (by decide)
  ⟨by decide, h.1, by rw [h.2]⟩

/-- Every element of the write loop's trace is a fulfillment-creation
write. -/
theorem writeLoop_trace_writes (wr : Nat → WriteResp) (info : TrackingInfo) :
    ∀ (fos : List FONode) (i : Nat) (c : RemoteCall),
      c ∈ (writeLoop wr info fos i).2 → isWriteCall c = true := by
  intro fos
  induction fos with
  | nil => intro i c h; simp [writeLoop] at h
  | cons fo rest ih =>
    intro i c h
    by_cases h0 : (wr i).userErrors.isEmpty
    · rcases hrec : writeLoop wr info rest (i + 1) with ⟨out, tr⟩
      cases out with
      | success recs =>
        simp [writeLoop, h0, hrec] at h
        rcases h with rfl | hmem
        · rfl
        · exact ih (i + 1) c (by rw [hrec]; exact hmem)
      | failure errs =>
        simp [writeLoop, h0, hrec] at h
        rcases h with rfl | hmem
        · rfl
        · exact ih (i + 1) c (by rw [hrec]; exact hmem)
    · simp [writeLoop, h0] at h
      rw [h]
      rfl

/-- The part_001 fulfillment phase's trace starts with the direct-reference
lookup and continues only with fulfillment writes. -/
theorem part001_fulfill_trace (lookup : String → Option ShopOrder)
    (wr : Nat → WriteResp) (gid carrier tn : String) :
    ∃ rest, (Part001.fulfillWithTrackingOnOpenFOs lookup wr gid carrier tn).2 =
        RemoteCall.shopifyOrderById gid :: rest ∧
      ∀ c ∈ rest, isWriteCall c = true := by
  unfold Part001.fulfillWithTrackingOnOpenFOs
  cases hl : lookup gid with
  | none => exact ⟨[], rfl, by simp⟩
  | some order =>
    by_cases hemp : (order.fulfillmentOrders.filter isOpenFO).isEmpty
    · exact ⟨[], by simp [hemp], by simp⟩
    · rcases hloop : writeLoop wr { company := carrier, number := tn, url := none }
        (order.fulfillmentOrders.filter isOpenFO) 0 with ⟨out, tr⟩
      cases out with
      | success recs =>
        exact ⟨tr, by simp [hemp, hloop],
          fun c hc => writeLoop_trace_writes wr _ _ 0 c (by rw [hloop]; exact hc)⟩
      | failure errs =>
        exact ⟨tr, by simp [hemp, hloop],
          fun c hc => writeLoop_trace_writes wr _ _ 0 c (by rw [hloop]; exact hc)⟩

/-- Claim C7 (amended): when the *first* truthy value among `content.code`
and `foreignCode` is, after trimming, a 10–16-digit number, extraction
synthesizes `gid://shopify/Order/<digits>`, and the part_001 handler then
looks the order up by that direct reference — its trace contains the
by-id lookup and no text-search call at all.  (The claim's original "in a
dedicated id-like field (content.code or foreignCode)" fails when a
non-numeric `content.code` shadows a numeric `foreignCode`; see the
counterexample and claim C10.) -/
theorem c7_numeric_id_direct_reference :
    (∀ (bk : BkDetail) (raw : String),
       firstTruthy [bk.content.bind BkContent.code, bk.foreignCode] = some raw →
       isShopifyNumericId (jsTrim raw) = true →
       extractShopifyOrderGidFromBasitKargo bk =
         some ("gid://shopify/Order/" ++ jsTrim raw)) ∧
    (∀ (w : World) (p : Payload) (pid raw tn : String),
       (p.status = some "READY_TO_SHIP" ∨ p.status = some "SHIPPED") →
       jsTruthy p.id = some pid →
       firstTruthy [(w.bkFetch pid).content.bind BkContent.code, (w.bkFetch pid).foreignCode] = some raw →
       isShopifyNumericId (jsTrim raw) = true →
       Part001.normalizeTrackingNumber (w.bkFetch pid) p = some tn →
       RemoteCall.shopifyOrderById ("gid://shopify/Order/" ++ jsTrim raw) ∈
         (Part001.handleBasitKargoWebhook w p).2 ∧
       ∀ c ∈ (Part001.handleBasitKargoWebhook w p).2, isSearchCall c = false) := by
  have hextr : ∀ (bk : BkDetail) (raw : String),
      firstTruthy [bk.content.bind BkContent.code, bk.foreignCode] = some raw →
      isShopifyNumericId (jsTrim raw) = true →
      extractShopifyOrderGidFromBasitKargo bk =
        some ("gid://shopify/Order/" ++ jsTrim raw) := by
    intro bk raw hft hdig
    unfold extractShopifyOrderGidFromBasitKargo
    rw [hft]
    simp [hdig]
  refine ⟨hextr, fun w p pid raw tn hst hid hft hdig htn => ?_⟩
  have hgid := hextr (w.bkFetch pid) raw hft hdig
  obtain ⟨rest, hrest, hwr⟩ := part001_fulfill_trace w.lookup w.writeResp
    ("gid://shopify/Order/" ++ jsTrim raw) (Part001.normalizeCarrierName (w.bkFetch pid) p) tn
  have htr : (Part001.handleBasitKargoWebhook w p).2 =
      RemoteCall.bkFetch pid :: RemoteCall.shopifyOrderById ("gid://shopify/Order/" ++ jsTrim raw) :: rest := by
    unfold Part001.handleBasitKargoWebhook
    rcases hst with hst | hst <;> simp [hst, hid, hgid, htn, hrest]
  rw [htr]
  refine ⟨by simp, ?_⟩
  intro c hc
  simp only [List.mem_cons] at hc
  rcases hc with rfl | rfl | hc
  · rfl
  · rfl
  · have := hwr c hc
    cases c <;> simp_all [isWriteCall, isSearchCall]

/-- Claim C7 counterexample: a detail whose dedicated id-like field
`foreignCode` holds a 13-digit Shopify id still extracts nothing, because
the non-numeric `content.code` is consulted first — refuting the claim's
universal "content.code or foreignCode" form. -/
theorem c7_foreign_code_shadowed_counterexample :
    mixedDetail.foreignCode = some "7708726460709" ∧
    isShopifyNumericId (jsTrim "7708726460709") = true ∧
    extractShopifyOrderGidFromBasitKargo mixedDetail = none := by
  exact ⟨rfl, by decide, by decide⟩

/-- Claim C7 witness: the 13-digit `content.code` produces the direct
reference and the part_001 handler's trace has the by-id lookup and no
search. -/
theorem c7_numeric_id_direct_reference_witness :
    RemoteCall.shopifyOrderById ("gid://shopify/Order/" ++ jsTrim "7708726460709") ∈
      (Part001.handleBasitKargoWebhook gidWorld rtsPayload).2 ∧
    ∀ c ∈ (Part001.handleBasitKargoWebhook gidWorld rtsPayload).2, isSearchCall c = false :=
  c7_numeric_id_direct_reference.2 gidWorld rtsPayload "BK-2" "7708726460709" "TRK1"
    (Or.inl rfl) (by decide) (by decide) (by decide) (by decide)

/-- Claim C8: on an actionable event whose resolved data yields no tracking
number from any candidate field, each variant returns a hard failure
(ok = false, mapped to HTTP 400 by every route) and issues no
fulfillment-creation write. -/
theorem c8_missing_tracking_hard_failure :
    (∀ (w : World) (p : Payload) (pid : String),
       jsTruthy p.id = some pid →
       (p.status = some "READY_TO_SHIP" ∨ p.status = some "SHIPPED") →
       IndexA.normalizeTrackingNumber (w.bkFetch pid) p = none →
       (IndexA.handleBasitKargoWebhook w p).1.ok = false ∧
       hasWriteCall (IndexA.handleBasitKargoWebhook w p).2 = false) ∧
    (∀ (w : World) (p : Payload) (pid : String),
       jsTruthy p.id = some pid →
       (p.status = some "READY_TO_SHIP" ∨ p.status = some "SHIPPED") →
       Part001.normalizeTrackingNumber (w.bkFetch pid) p = none →
       (Part001.handleBasitKargoWebhook w p).1.ok = false ∧
       hasWriteCall (Part001.handleBasitKargoWebhook w p).2 = false) ∧
    (∀ (w : World) (p : Payload),
       p.status = some "SHIPPED" →
       jsTruthy p.handlerShipmentCode = none →
       Part000.handleBasitKargoWebhook w p =
         ({ ok := false, msg := "Missing handlerShipmentCode" }, [])) := by
  refine ⟨fun w p pid hid hst htn => ?_, fun w p pid hid hst htn => ?_, fun w p hst htn => ?_⟩
  · have hjs1 : jsTruthy (some ("READY_TO_SHIP" : String)) = some "READY_TO_SHIP" := by decide
    have hjs2 : jsTruthy (some ("SHIPPED" : String)) = some "SHIPPED" := by decide
    rcases hst with hst | hst <;>
      cases hg : extractShopifyOrderGidFromBasitKargo (w.bkFetch pid) <;>
      simp [IndexA.handleBasitKargoWebhook, hid, hst, hjs1, hjs2, hg, htn,
        hasWriteCall, isWriteCall]
  · rcases hst with hst | hst <;>
      cases hg : extractShopifyOrderGidFromBasitKargo (w.bkFetch pid) <;>
      simp [Part001.handleBasitKargoWebhook, hid, hst, hg, htn, hasWriteCall, isWriteCall]
  · unfold Part000.handleBasitKargoWebhook
    simp [hst, htn]

/-- Claim C8 witness: a SHIPPED event whose detail and payload carry no
tracking code fails hard with zero writes in the first src/index.js
program. -/
theorem c8_missing_tracking_hard_failure_witness :
    IndexA.normalizeTrackingNumber (emptyWorld.bkFetch "BK-1") shippedNoTrack = none ∧
    (IndexA.handleBasitKargoWebhook emptyWorld shippedNoTrack).1.ok = false ∧
    hasWriteCall (IndexA.handleBasitKargoWebhook emptyWorld shippedNoTrack).2 = false :=
  have h := c8_missing_tracking_hard_failure.1 emptyWorld shippedNoTrack "BK-1"
    (by decide) (Or.inr rfl) (by decide)
  ⟨by decide, h.1, h.2⟩

/-- The per-item loop of the backfill route equals the independent
per-item descriptions: each item contributes to `done` or `failed`
according to its own outcome alone. -/
theorem processItems_eq (outcome : String → Except String Result) :
    ∀ items, IndexA.processItems outcome items =
      (IndexA.doneOf outcome items, IndexA.failedOf outcome items) := by
  intro items
  induction items with
  | nil => rfl
  | cons it rest ih =>
    cases hid : jsTruthy it.id with
    | none =>
      simp [IndexA.processItems, IndexA.doneOf, IndexA.failedOf, hid, ih,
        List.filterMap_cons]
    | some id =>
      cases ho : outcome id with
      | ok r =>
        by_cases hok : r.ok = true
        · simp [IndexA.processItems, IndexA.doneOf, IndexA.failedOf, hid, ho, hok, ih,
            List.filterMap_cons]
        · simp [IndexA.processItems, IndexA.doneOf, IndexA.failedOf, hid, ho, hok, ih,
            List.filterMap_cons]
      | error e =>
        simp [IndexA.processItems, IndexA.doneOf, IndexA.failedOf, hid, ho, ih,
          List.filterMap_cons]

/-- Full characterization of the backfill page loop: the page count is
bounded by the budget; pages before the last fetched one are full
(non-empty and at least `size` items); if the loop stopped before the
budget, the last page was empty or short; and the accumulated lists are the
independent per-item descriptions over all fetched pages. -/
theorem backfillPages_spec (w : IndexA.BackfillWorld) (size : Nat) :
    ∀ (rem start : Nat) (d f : List IndexA.RunEntry) (n : Nat),
      IndexA.backfillPages w size rem start = (d, f, n) →
      n ≤ rem ∧
      d = IndexA.doneOf w.outcome (IndexA.segItems w start n) ∧
      f = IndexA.failedOf w.outcome (IndexA.segItems w start n) ∧
      (∀ i, i + 1 < n → w.pages (start + i) ≠ [] ∧ size ≤ (w.pages (start + i)).length) ∧
      (n < rem → ∃ m, n = m + 1 ∧
        (w.pages (start + m) = [] ∨ (w.pages (start + m)).length < size)) ∧
      (0 < rem → 0 < n) := by
  intro rem
  induction rem with
  | zero =>
    intro start d f n h
    simp [IndexA.backfillPages, Prod.ext_iff] at h
    obtain ⟨h1, h2, h3⟩ := h
    subst h1 h2 h3
    refine ⟨Nat.le_refl 0, rfl, rfl, ?_, ?_, ?_⟩
    · intro i hi; omega
    · intro hlt; omega
    · intro hpos; omega
  | succ rem ih =>
    intro start d f n h
    by_cases hemp : (w.pages start).isEmpty
    · have hpe : w.pages start = [] := by simpa [List.isEmpty_iff] using hemp
      simp [IndexA.backfillPages, hemp, Prod.ext_iff] at h
      obtain ⟨h1, h2, h3⟩ := h
      subst h1 h2 h3
      refine ⟨by omega, ?_, ?_, ?_, ?_, ?_⟩
      · simp [IndexA.segItems, hpe, IndexA.doneOf]
      · simp [IndexA.segItems, hpe, IndexA.failedOf]
      · intro i hi; omega
      · intro _; exact ⟨0, rfl, Or.inl (by simpa using hpe)⟩
      · intro _; omega
    · have hout := processItems_eq w.outcome (w.pages start)
      by_cases hlt : (w.pages start).length < size
      · simp [IndexA.backfillPages, hemp, hlt, hout, Prod.ext_iff] at h
        obtain ⟨h1, h2, h3⟩ := h
        subst h1 h2 h3
        refine ⟨by omega, ?_, ?_, ?_, ?_, ?_⟩
        · simp [IndexA.segItems]
        · simp [IndexA.segItems]
        · intro i hi; omega
        · intro _; exact ⟨0, rfl, Or.inr (by simpa using hlt)⟩
        · intro _; omega
      · rcases hrec : IndexA.backfillPages w size rem (start + 1) with ⟨d2, f2, n2⟩
        obtain ⟨hle, hd2, hf2, hfull, hstop, hpos⟩ := ih (start + 1) d2 f2 n2 hrec
        simp [IndexA.backfillPages, hemp, hlt, hrec, hout, Prod.ext_iff] at h
        obtain ⟨h1, h2, h3⟩ := h
        subst h1 h2 h3
        refine ⟨by omega, ?_, ?_, ?_, ?_, ?_⟩
        · simp [IndexA.segItems, IndexA.doneOf, List.filterMap_append, hd2,
            IndexA.doneOf]
        · simp [IndexA.segItems, IndexA.failedOf, List.filterMap_append, hf2,
            IndexA.failedOf]
        · intro i hi
          cases i with
          | zero =>
            constructor
            · simpa [List.isEmpty_iff] using hemp
            · have hge : size ≤ (w.pages start).length := by omega
              simpa using hge
          | succ i' =>
            have := hfull i' (by omega)
            constructor
            · simpa [show start + (i' + 1) = start + 1 + i' by omega] using this.1
            · simpa [show start + (i' + 1) = start + 1 + i' by omega] using this.2
        · intro hltn
          obtain ⟨m, hm, hc⟩ := hstop (by omega)
          refine ⟨m + 1, by omega, ?_⟩
          simpa [show start + (m + 1) = start + 1 + m by omega] using hc
        · intro _; omega

/-- Claim C9: a backfill run with page size `size` and page budget
`maxPages` fetches `n ≤ maxPages` pages, every page before the last is
non-empty with at least `size` items, stopping before the budget happens
exactly on an empty or short page, the `done`/`failed` lists are the
independent per-item outcomes over all fetched pages (a failing or throwing
item is recorded in `failed` and never stops the run), and the final report
carries `doneCount`, `failedCount` and the full `failed` list (the report
shape has no success list). -/
theorem c9_backfill_run (w : IndexA.BackfillWorld) (startDate endDate : String)
    (statusList : List String) (size maxPages : Nat)
    (d f : List IndexA.RunEntry) (n : Nat)
    (hrun : IndexA.backfillPages w size maxPages 0 = (d, f, n)) :
    n ≤ maxPages ∧
    (∀ i, i + 1 < n → w.pages i ≠ [] ∧ size ≤ (w.pages i).length) ∧
    (n < maxPages → ∃ m, n = m + 1 ∧ (w.pages m = [] ∨ (w.pages m).length < size)) ∧
    d = IndexA.doneOf w.outcome (IndexA.segItems w 0 n) ∧
    f = IndexA.failedOf w.outcome (IndexA.segItems w 0 n) ∧
    IndexA.backfillToday w startDate endDate statusList size maxPages =
      { ok := true, startDate := startDate, endDate := endDate, statusList := statusList,
        doneCount := d.length, failedCount := f.length, failed := f } := by
  obtain ⟨hle, hd, hf, hfull, hstop, -⟩ := backfillPages_spec w size maxPages 0 d f n hrun
  refine ⟨hle, ?_, ?_, hd, hf, ?_⟩
  · intro i hi
    have := hfull i hi
    exact ⟨by simpa using this.1, by simpa using this.2⟩
  · intro hlt
    obtain ⟨m, hm, hc⟩ := hstop hlt
    exact ⟨m, hm, by simpa using hc⟩
  · unfold IndexA.backfillToday
    simp [hrun]

/-- Claim C9 witness: one page of three items where item B's orchestrator
call throws yields doneCount 2, failedCount 1, and `failed` holding exactly
item B. -/
theorem c9_backfill_run_witness :
    IndexA.backfillPages bfWorld 100 50 0 =
      ([{ id := "A", msg := "done" }, { id := "C", msg := "done" }],
       [{ id := "B", msg := "boom" }], 1) ∧
    [({ id := "B", msg := "boom" } : IndexA.RunEntry)] =
      IndexA.failedOf bfWorld.outcome (IndexA.segItems bfWorld 0 1) ∧
    IndexA.backfillToday bfWorld "s" "e" ["READY_TO_SHIP", "SHIPPED"] 100 50 =
      { ok := true, startDate := "s", endDate := "e",
        statusList := ["READY_TO_SHIP", "SHIPPED"],
        doneCount := 2, failedCount := 1, failed := [{ id := "B", msg := "boom" }] } :=
  have h := c9_backfill_run bfWorld "s" "e" ["READY_TO_SHIP", "SHIPPED"] 100 50
    [{ id := "A", msg := "done" }, { id := "C", msg := "done" }]
    [{ id := "B", msg := "boom" }] 1 (by decide)
  ⟨by decide, h.2.2.2.2.1, h.2.2.2.2.2⟩

/-- Claim C10: in the direct-reference extraction, `content.code` takes
strict precedence via short-circuit: a present non-empty `content.code`
that is not 10–16 digits after trimming makes extraction return `none`
whatever `foreignCode` holds, and when `content.code` is present and
non-empty the result does not depend on `foreignCode` at all. -/
theorem c10_content_code_precedence :
    (∀ (bk : BkDetail) (s : String),
       bk.content.bind BkContent.code = some s →
       s.data.isEmpty = false →
       isShopifyNumericId (jsTrim s) = false →
       extractShopifyOrderGidFromBasitKargo bk = none) ∧
    (∀ (bk : BkDetail) (s : String) (fc : Option String),
       bk.content.bind BkContent.code = some s →
       s.data.isEmpty = false →
       extractShopifyOrderGidFromBasitKargo { bk with foreignCode := fc } =
         extractShopifyOrderGidFromBasitKargo { bk with foreignCode := none }) := by
  constructor
  · intro bk s hcode hne hdig
    have hjs : jsTruthy (bk.content.bind BkContent.code) = some s := by
      rw [hcode]; simp [jsTruthy, hne]
    unfold extractShopifyOrderGidFromBasitKargo
    simp [firstTruthy, hjs, hdig]
  · intro bk s fc hcode hne
    have hjs : jsTruthy (bk.content.bind BkContent.code) = some s := by
      rw [hcode]; simp [jsTruthy, hne]
    unfold extractShopifyOrderGidFromBasitKargo
    simp [firstTruthy, hjs]

/-- Claim C10 witness: `content.code = "SHOPIFY-1"` forces `none` although
`foreignCode` holds a valid 13-digit id. -/
theorem c10_content_code_precedence_witness :
    mixedDetail.content.bind BkContent.code = some "SHOPIFY-1" ∧
    extractShopifyOrderGidFromBasitKargo mixedDetail = none :=
  ⟨by decide,
   c10_content_code_precedence.1 mixedDetail "SHOPIFY-1" (by decide) (by decide) (by decide)⟩
